import Mathlib

/-!
# talkkonnect `gps.go`: acquisition cycle, fan-out and Traccar adapters

A shallow embedding of `src/gps.go`.

* Go `float64` values are carried as their IEEE-754 bit pattern; the only
  operation the acquisition code performs on them is the comparison `!= 0`
  (true for every pattern except `+0` and `-0`, in particular true for NaN)
  and copying.
* Go `int64` / `int` values are `Int`; no arithmetic is performed on them.
* The globals `GNSSData`, `GNSSDataPublic`, the three latches, `goodGPSRead`,
  `Receivers` and the GPS section of `Config` form the explicit `State`.
* `GNSSDataPublic` is the list of values sent on the channel, oldest first;
  a send is taken to complete (the consumers drain the channel).
* The external world (results of `serial.Open`, of `Write`, the scanned lines
  together with the decoder's verdict and the wall clock) is the `World`.
* A Go runtime panic is an explicit outcome.
* `Receivers` is read once for the publish loop (registration happens at
  start-up, before any publishing).
* The T55 adapter is run on the Fixes the channel delivers to it and, for each
  dial, on the sequence of events its supervision `select` receives.
* Logging, the pauses (`time.Sleep`), the deferred `Close` calls and the
  handling of HTTP responses have no effect on the modelled state and are
  left out.
-/

namespace Talkkonnect

/-! ## Data model -/

/-- A Go `float64`, as its IEEE-754 bit pattern. -/
structure Float64 where
  bits : Nat
deriving DecidableEq, Repr

/-- Go `x != 0` on a `float64`: false exactly for `+0` (all bits clear) and
`-0` (only the sign bit set). -/
def Float64.ne0 (x : Float64) : Bool :=
  !(x.bits % 18446744073709551616 == 0 || x.bits % 18446744073709551616 == 9223372036854775808)

/-- A `time.Time` in UTC, as its civil fields. -/
structure Time where
  year : Nat
  month : Nat
  day : Nat
  hour : Nat
  minute : Nat
  second : Nat
deriving DecidableEq, Repr

/-- The zero `time.Time` (January 1, year 1, 00:00:00 UTC). -/
def Time.zero : Time := ⟨1, 1, 1, 0, 0, 0⟩

/-- `GSVDataStruct` of the source. -/
structure GSVDataStruct where
  PRNNumber : Int
  SNR : Int
  Azimuth : Int
deriving DecidableEq, Repr

/-- The Go array type `[4]GSVDataStruct`. -/
structure GSVArray where
  e0 : GSVDataStruct
  e1 : GSVDataStruct
  e2 : GSVDataStruct
  e3 : GSVDataStruct
deriving DecidableEq, Repr

/-- Indexing `a[i]` of a `[4]GSVDataStruct`; `none` is the index-out-of-range panic. -/
def GSVArray.get? (a : GSVArray) : Nat → Option GSVDataStruct
  | 0 => some a.e0
  | 1 => some a.e1
  | 2 => some a.e2
  | 3 => some a.e3
  | _ => none

/-- Assignment `a[i] = v` of a `[4]GSVDataStruct`; `none` is the index-out-of-range panic. -/
def GSVArray.set? (a : GSVArray) (i : Nat) (v : GSVDataStruct) : Option GSVArray :=
  match i with
  | 0 => some { a with e0 := v }
  | 1 => some { a with e1 := v }
  | 2 => some { a with e2 := v }
  | 3 => some { a with e3 := v }
  | _ => none

/-- `GNSSDataStruct` of the source (the Fix). -/
structure GNSSDataStruct where
  DateTime : Time
  Date : String
  Variation : Float64
  Time : String
  Validity : String
  Lattitude : Float64
  Longitude : Float64
  Speed : Float64
  Course : Float64
  FixQuality : String
  SatsInUse : Int
  SatsInView : Int
  HDOP : Float64
  Altitude : Float64
  RMCRaw : String
  GSVData : GSVArray
deriving DecidableEq, Repr

/-- The zero value of `GSVDataStruct`. -/
def GSVDataStruct.zero : GSVDataStruct := ⟨0, 0, 0⟩

/-- The zero value of `GNSSDataStruct` (the empty Fix). -/
def GNSSDataStruct.zero : GNSSDataStruct :=
  { DateTime := Time.zero, Date := "", Variation := ⟨0⟩, Time := "", Validity := "",
    Lattitude := ⟨0⟩, Longitude := ⟨0⟩, Speed := ⟨0⟩, Course := ⟨0⟩, FixQuality := "",
    SatsInUse := 0, SatsInView := 0, HDOP := ⟨0⟩, Altitude := ⟨0⟩, RMCRaw := "",
    GSVData := ⟨GSVDataStruct.zero, GSVDataStruct.zero, GSVDataStruct.zero, GSVDataStruct.zero⟩ }

/-! ## Decoded sentences (the fields of `nmea.RMC`, `nmea.GGA`, `nmea.GSV` the code reads) -/

/-- The fields of `nmea.RMC` read by the code. `Date`, `Time` and `Validity`
hold the text `fmt.Sprintf("%v", ·)` gives for the decoder's value. -/
structure RMC where
  Raw : String
  Time : String
  Validity : String
  Latitude : Float64
  Longitude : Float64
  Speed : Float64
  Course : Float64
  Date : String
  Variation : Float64
deriving DecidableEq, Repr

/-- The fields of `nmea.GGA` read by the code. -/
structure GGA where
  Latitude : Float64
  Longitude : Float64
  FixQuality : String
  NumSatellites : Int
  HDOP : Float64
  Altitude : Float64
deriving DecidableEq, Repr

/-- One `nmea.GSVInfo` entry. -/
structure GSVInfo where
  SVPRNNumber : Int
  Elevation : Int
  Azimuth : Int
  SNR : Int
deriving DecidableEq, Repr

/-- The fields of `nmea.GSV` read by the code; `Info` is a Go slice. -/
structure GSV where
  NumberSVsInView : Int
  Info : List GSVInfo
deriving DecidableEq, Repr

/-- A successfully decoded sentence, by `s.DataType()`; `other` is any type
the `switch` has no case for. -/
inductive Sentence where
  | rmc (m : RMC)
  | gga (m : GGA)
  | gsv (m : GSV)
  | other
deriving DecidableEq, Repr

/-- One iteration of `for scanner.Scan()`: the value `time.Now().UTC()` would
return during it and the result of `nmea.Parse` (`none` when `err != nil`). -/
structure ScanLine where
  now : Time
  parsed : Option Sentence
deriving DecidableEq, Repr

/-! ## Configuration, world and state -/

/-- The fields of `Config.Global.Hardware.GPS` read by the code. -/
structure GPSConfig where
  Enabled : Bool
  Port : String
  Baud : Nat
  DataBits : Nat
  StopBits : Nat
  MinRead : Nat
  CharTimeOut : Nat
  Even : Bool
  Odd : Bool
  Rs485 : Bool
  Rs485HighDuringSend : Bool
  Rs485HighAfterSend : Bool
  TxData : String
  Rx : Bool
deriving DecidableEq, Repr

/-- `serial.ParityMode`. -/
inductive ParityMode where
  | PARITY_NONE
  | PARITY_ODD
  | PARITY_EVEN
deriving DecidableEq, Repr

/-- `serial.OpenOptions` as filled in by the code. -/
structure OpenOptions where
  PortName : String
  BaudRate : Nat
  DataBits : Nat
  StopBits : Nat
  MinimumReadSize : Nat
  InterCharacterTimeout : Nat
  ParityMode : ParityMode
  Rs485Enable : Bool
  Rs485RtsHighDuringSend : Bool
  Rs485RtsHighAfterSend : Bool
deriving DecidableEq, Repr

/-- What the environment answers during one call of `getGpsPosition`. -/
structure World where
  /-- the first `serial.Open` returns `err == nil` -/
  openOk : Bool
  /-- `f.Write` returns `err == nil` -/
  writeOk : Bool
  /-- the second `serial.Open` (under `Rx`) returns `err == nil` -/
  rxOpenOk : Bool
  /-- the lines the scanner yields before `Scan` returns false -/
  lines : List ScanLine
deriving DecidableEq, Repr

/-- The package-level variables the code reads and writes, and the log of
`serial.Open` and `Write` calls made. -/
structure State where
  Config : GPSConfig
  GNSSData : GNSSDataStruct
  GNSSDataPublic : List GNSSDataStruct
  RMCSentenceValid : Bool
  GGASentenceValid : Bool
  GSVSentenceValid : Bool
  goodGPSRead : Bool
  Receivers : Int
  opened : List OpenOptions
  written : List (List Nat)
deriving DecidableEq, Repr

/-- How a call ends: it returns `(bool, error)` or the goroutine panics. -/
inductive Outcome where
  | ret (ok : Bool) (err : Option String)
  | panic
deriving DecidableEq, Repr

/-- Straight-line code either runs to completion, leaving a state, or panics
(the state is the one reached at the panic). -/
inductive Run where
  | ok (st : State)
  | panic (st : State)
deriving DecidableEq, Repr

/-! ## The Fix assembler (`getGpsPosition`, the body of `for scanner.Scan()`) -/

/-- `case nmea.TypeRMC` (source lines 172-188); `now` is `time.Now().UTC()`. -/
def caseRMC (st : State) (now : Time) (m : RMC) : State :=
  if m.Latitude.ne0 && m.Longitude.ne0 && !st.RMCSentenceValid then
    { st with
      RMCSentenceValid := true
      GNSSData := { st.GNSSData with
        DateTime := now
        Date := m.Date
        Time := m.Time
        Validity := m.Validity
        Lattitude := m.Latitude
        Longitude := m.Longitude
        Speed := m.Speed
        Course := m.Course
        Variation := m.Variation
        RMCRaw := m.Raw } }
  else st

/-- `case nmea.TypeGGA` (source lines 189-199). -/
def caseGGA (st : State) (m : GGA) : State :=
  if m.Latitude.ne0 && m.Longitude.ne0 && !st.GGASentenceValid then
    { st with
      GGASentenceValid := true
      GNSSData := { st.GNSSData with
        FixQuality := m.FixQuality
        SatsInUse := m.NumSatellites
        HDOP := m.HDOP
        Altitude := m.Altitude } }
  else st

/-- The body of `for i := range m.Info` for the entry `e = m.Info[i]`
(source lines 205-213). The three assignments to `GNSSData.GSVData[i]` index a
`[4]GSVDataStruct`; the first of them panics when `i` is out of range. -/
def gsvEntry (m : GSV) (i : Nat) (e : GSVInfo) (st : State) : Run :=
  if decide (e.SNR > 0) && !st.GSVSentenceValid then
    match st.GNSSData.GSVData.set? i ⟨e.SVPRNNumber, e.SNR, e.Azimuth⟩ with
    | none => Run.panic st
    | some a =>
      let st1 := { st with GNSSData := { st.GNSSData with GSVData := a } }
      if i ≥ 3 then
        Run.ok { st1 with
          GSVSentenceValid := true
          GNSSData := { st1.GNSSData with SatsInView := m.NumberSVsInView } }
      else Run.ok st1
  else Run.ok st

/-- `for i := range m.Info`, from index `i` on; `rest` is `m.Info[i:]`. -/
def gsvLoop (m : GSV) : List GSVInfo → Nat → State → Run
  | [], _, st => Run.ok st
  | e :: rest, i, st =>
    match gsvEntry m i e st with
    | Run.ok st1 => gsvLoop m rest (i + 1) st1
    | Run.panic st1 => Run.panic st1

/-- `case nmea.TypeGSV` (source lines 201-215). -/
def caseGSV (st : State) (m : GSV) : Run :=
  gsvLoop m m.Info 0 st

/-- One iteration of `for scanner.Scan()` (source lines 167-217): a line the
decoder rejects and a sentence of another type leave the state alone. -/
def scanStep (st : State) (l : ScanLine) : Run :=
  match l.parsed with
  | none => Run.ok st
  | some (Sentence.rmc m) => Run.ok (caseRMC st l.now m)
  | some (Sentence.gga m) => Run.ok (caseGGA st m)
  | some (Sentence.gsv m) => caseGSV st m
  | some Sentence.other => Run.ok st

/-- The loop `for scanner.Scan()` over the lines the scanner yields. -/
def scanLoop : List ScanLine → State → Run
  | [], st => Run.ok st
  | l :: ls, st =>
    match scanStep st l with
    | Run.ok st1 => scanLoop ls st1
    | Run.panic st1 => Run.panic st1

/-! ## The publish step -/

/-- `for a := 0; a < Receivers; a++ { GNSSDataPublic <- GNSSData; ... }` with
`n` iterations left; a send appends to the channel. -/
def sendLoop (f : GNSSDataStruct) : Nat → List GNSSDataStruct → List GNSSDataStruct
  | 0, ch => ch
  | n + 1, ch => sendLoop f n (ch ++ [f])

/-- Source lines 220-227. -/
def broadcast (st : State) : State :=
  if st.RMCSentenceValid && st.GGASentenceValid && st.GSVSentenceValid then
    { st with
      goodGPSRead := true
      GNSSDataPublic := sendLoop st.GNSSData st.Receivers.toNat st.GNSSDataPublic }
  else st

/-! ## `getGpsPosition` -/

/-- `fromHexChar` of Go `encoding/hex`. -/
def fromHexChar (c : Char) : Option Nat :=
  if '0' ≤ c ∧ c ≤ '9' then some (c.toNat - '0'.toNat)
  else if 'a' ≤ c ∧ c ≤ 'f' then some (c.toNat - 'a'.toNat + 10)
  else if 'A' ≤ c ∧ c ≤ 'F' then some (c.toNat - 'A'.toNat + 10)
  else none

/-- `hex.Decode`: pairs of hex digits; an odd length or a non-hex byte is an error. -/
def hexDecode : List Char → Option (List Nat)
  | [] => some []
  | [_] => none
  | a :: b :: rest =>
    match fromHexChar a, fromHexChar b, hexDecode rest with
    | some x, some y, some r => some ((x * 16 + y) :: r)
    | _, _, _ => none

/-- `hex.DecodeString`; `none` when `err != nil`. -/
def hexDecodeString (s : String) : Option (List Nat) :=
  hexDecode s.toList

/-- Source lines 105-124. -/
def openOptions (c : GPSConfig) : OpenOptions :=
  { PortName := c.Port
    BaudRate := c.Baud
    DataBits := c.DataBits
    StopBits := c.StopBits
    MinimumReadSize := c.MinRead
    InterCharacterTimeout := c.CharTimeOut
    ParityMode :=
      if c.Even then ParityMode.PARITY_EVEN
      else if c.Odd then ParityMode.PARITY_ODD
      else ParityMode.PARITY_NONE
    Rs485Enable := c.Rs485
    Rs485RtsHighDuringSend := c.Rs485HighDuringSend
    Rs485RtsHighAfterSend := c.Rs485HighAfterSend }

/-- Source lines 155-232, entered with the options built before. When the
second `serial.Open` fails `serialPort` is a nil interface and the method call
on it panics. The scanner is taken to reach the end of its input. -/
def receive (w : World) (options : OpenOptions) (st : State) : Outcome × State :=
  if st.Config.Rx then
    let st1 := { st with opened := st.opened ++ [options] }
    if !w.rxOpenOk then (Outcome.panic, st1)
    else
      match scanLoop w.lines st1 with
      | Run.panic st2 => (Outcome.panic, st2)
      | Run.ok st2 =>
        let st3 := broadcast st2
        (Outcome.ret st3.goodGPSRead none, st3)
  else (Outcome.ret false (some "error parsing gnss module"), st)

/-- `getGpsPosition` (source lines 89-235). -/
def getGpsPosition (w : World) (st0 : State) : Outcome × State :=
  let st :=
    { st0 with
      RMCSentenceValid := false
      GGASentenceValid := false
      GSVSentenceValid := false
      goodGPSRead := false }
  if st.Config.Enabled then
    if st.Config.Port = "" then
      (Outcome.ret false (some "gnss port not specified"), st)
    else if st.Config.Even && st.Config.Odd then
      (Outcome.ret false (some "can't specify both even and odd parity"), st)
    else
      let options := openOptions st.Config
      let st1 := { st with opened := st.opened ++ [options] }
      if !w.openOk then
        (Outcome.ret false (some "cannot open serial port"),
          { st1 with Config := { st1.Config with Enabled := false } })
      else if st1.Config.TxData ≠ "" then
        match hexDecodeString st1.Config.TxData with
        | none =>
          (Outcome.ret false (some "cannot decode hex data"),
            { st1 with Config := { st1.Config with Enabled := false } })
        | some txData =>
          let st2 := { st1 with written := st1.written ++ [txData] }
          if !w.writeOk then
            (Outcome.ret false (some "error writing to serial port"), st2)
          else receive w options st2
      else receive w options st1
  else (Outcome.ret false (some "gnss not enabled"), st)

/-! ## The Traccar adapters -/

/-- Go `appendInt(b, n, width)` for `n ≥ 0`: decimal, zero-padded to `width`. -/
def appendInt (n width : Nat) : List Char :=
  List.replicate (width - (Nat.toDigits 10 n).length) '0' ++ Nat.toDigits 10 n

/-- `Time.Format` over the characters of a layout, for the layout elements
that occur in this file: `2006` (four-digit year), `01` (two-digit month),
`02` (two-digit day of month), `15` (two-digit hour), `04` (two-digit minute),
`05` (two-digit second); every other character is copied. The other layout
elements of package `time` are not modelled. -/
def Time.formatChars (t : Time) : List Char → List Char
  | '2' :: '0' :: '0' :: '6' :: rest => appendInt t.year 4 ++ Time.formatChars t rest
  | '0' :: '1' :: rest => appendInt t.month 2 ++ Time.formatChars t rest
  | '0' :: '2' :: rest => appendInt t.day 2 ++ Time.formatChars t rest
  | '1' :: '5' :: rest => appendInt t.hour 2 ++ Time.formatChars t rest
  | '0' :: '4' :: rest => appendInt t.minute 2 ++ Time.formatChars t rest
  | '0' :: '5' :: rest => appendInt t.second 2 ++ Time.formatChars t rest
  | c :: rest => c :: Time.formatChars t rest
  | [] => []

/-- `t.Format(layout)`. -/
def Time.Format (t : Time) (layout : String) : String :=
  String.mk (Time.formatChars t layout.toList)

/-- The fields of `Config.Global.Hardware.Traccar` read by the adapters;
`ServerURL`, `ServerIP` and the ports hold the text `fmt.Sprint` gives. -/
structure TraccarConfig where
  ClientId : String
  OsmandServerURL : String
  OsmandPort : String
  T55ServerIP : String
  T55Port : String
  OpengtsServerURL : String
  OpengtsPort : String
deriving DecidableEq, Repr

/-- `TraccarDateTime` of `httpSendTraccarOsman` (source line 242). -/
def TraccarDateTime (f : GNSSDataStruct) : String :=
  f.DateTime.Format "2006-02-01" ++ "%20" ++ f.DateTime.Format "15:04:05"

/-- `TraccarServerFullURLOsman` of `httpSendTraccarOsman` (source lines
244-247); `fmtF` is `fmt.Sprintf("%f", ·)`. -/
def TraccarServerFullURLOsman (c : TraccarConfig) (fmtF : Float64 → String)
    (f : GNSSDataStruct) : String :=
  c.OsmandServerURL ++ ":" ++ c.OsmandPort ++ "/?" ++ "id=" ++ c.ClientId ++ "&" ++
    "timestamp=" ++ TraccarDateTime f ++ "&" ++ "lat=" ++ fmtF f.Lattitude ++
    "&" ++ "lon=" ++ fmtF f.Longitude ++ "&" ++ "speed=" ++ fmtF f.Speed ++ "&" ++ "course=" ++
    fmtF f.Course ++ "&" ++ "variation=" ++ fmtF f.Variation

/-- What one iteration of the supervision `select` of `tcpSendT55Traccar`
receives: the reader's `io.EOF`, another read error, or the 60 s timer. -/
inductive Notify where
  | eof
  | otherErr
  | idle
deriving DecidableEq, Repr

/-- What the environment answers on one connection of the T55 adapter. -/
structure T55Session where
  /-- `net.Dial` returns a connection (on failure `CONN` is nil and the type
  assertion on it panics) -/
  dialOk : Bool
  /-- the four socket-option calls return `err == nil` -/
  setupOk : Bool
  /-- what the supervision loop receives, in order -/
  events : List Notify
deriving DecidableEq, Repr

/-- How the adapter function stands once the events are used up. -/
inductive AdapterEnd where
  | returned
  | panicked
  | waitingForFix
  | waitingInSession
deriving DecidableEq, Repr

/-- One TCP connection made by the adapter: the address dialled and the
strings written to it, in order. -/
structure T55Conn where
  address : String
  sent : List String
deriving DecidableEq, Repr

/-- The observable behaviour of a run of the T55 adapter. -/
structure T55Log where
  dequeued : List GNSSDataStruct
  conns : List T55Conn
  ending : AdapterEnd
deriving DecidableEq, Repr

/-- The supervision loop `for { select { ... } }` (source lines 335-347). It
has no `break`: it is left only by the `return` taken on `io.EOF`, which
returns from `tcpSendT55Traccar`; `true` means that `return` was taken,
`false` that the loop is still waiting when the events are used up. -/
def supervise : List Notify → Bool
  | [] => false
  | Notify.eof :: _ => true
  | Notify.otherErr :: rest => supervise rest
  | Notify.idle :: rest => supervise rest

/-- `tcpSendT55Traccar` (source lines 277-349) run on the Fixes `queue` that
the channel delivers to it and the sessions the environment offers. Every path
through the body of the outer `for` ends in `return`, in a panic or inside the
supervision loop, so the body is never entered a second time. A dial for which
the environment offers no session is a dial that fails. -/
def tcpSendT55Traccar (c : TraccarConfig) (queue : List GNSSDataStruct)
    (sessions : List T55Session) : T55Log :=
  match queue, sessions with
  | [], _ => ⟨[], [], AdapterEnd.waitingForFix⟩
  | f :: _, [] => ⟨[f], [], AdapterEnd.panicked⟩
  | f :: _, s :: _ =>
    let PGID := "$PGID" ++ "," ++ c.ClientId ++ "*0F" ++ "\r" ++ "\n"
    let GPRMC := f.RMCRaw ++ "\r" ++ "\n"
    let address := c.T55ServerIP ++ ":" ++ c.T55Port
    if !s.dialOk then ⟨[f], [], AdapterEnd.panicked⟩
    else if !s.setupOk then ⟨[f], [⟨address, []⟩], AdapterEnd.returned⟩
    else if supervise s.events then ⟨[f], [⟨address, [PGID, GPRMC]⟩], AdapterEnd.returned⟩
    else ⟨[f], [⟨address, [PGID, GPRMC]⟩], AdapterEnd.waitingInSession⟩

/-! ## The vocabulary of the claims -/

/-- The line is an RMC sentence with latitude `!= 0` and longitude `!= 0`. -/
def acceptedRMC (l : ScanLine) : Bool :=
  match l.parsed with
  | some (Sentence.rmc m) => m.Latitude.ne0 && m.Longitude.ne0
  | _ => false

/-- The line is a GGA sentence with latitude `!= 0` and longitude `!= 0`. -/
def acceptedGGA (l : ScanLine) : Bool :=
  match l.parsed with
  | some (Sentence.gga m) => m.Latitude.ne0 && m.Longitude.ne0
  | _ => false

/-- The line is a GSV sentence with an entry at index `>= 3` whose `SNR > 0`. -/
def acceptedGSV (l : ScanLine) : Bool :=
  match l.parsed with
  | some (Sentence.gsv m) => (m.Info.drop 3).any (fun e => decide (e.SNR > 0))
  | _ => false

/-- The sequence contains at least one accepted sentence of each family. -/
def cycleSatisfied (lines : List ScanLine) : Bool :=
  lines.any acceptedRMC && lines.any acceptedGGA && lines.any acceptedGSV

/-- If the line is a GSV sentence, it carries at most 4 entries: the bound on
what `nmea.Parse` returns (a GSV sentence reports at most four satellites, and
the decoder fills `Info` with at most four entries). -/
def gsvWithin4 (l : ScanLine) : Bool :=
  match l.parsed with
  | some (Sentence.gsv m) => decide (m.Info.length ≤ 4)
  | _ => true

/-- The first RMC sentence of the sequence with latitude `!= 0` and longitude
`!= 0`, with the clock reading of its line. -/
def firstRMC : List ScanLine → Option (Time × RMC)
  | [] => none
  | l :: ls =>
    match l.parsed with
    | some (Sentence.rmc m) =>
      if m.Latitude.ne0 && m.Longitude.ne0 then some (l.now, m) else firstRMC ls
    | _ => firstRMC ls

/-- The call gets as far as the scan loop: GPS enabled, a port named, no parity
conflict, both `serial.Open` calls succeed, the initialization payload (if any)
decodes and is written, reception enabled. -/
def reachesScan (w : World) (c : GPSConfig) : Bool :=
  c.Enabled && c.Port != "" && !(c.Even && c.Odd) && w.openOk &&
    (c.TxData == "" || ((hexDecodeString c.TxData).isSome && w.writeOk)) &&
    c.Rx && w.rxOpenOk

/-- The Fix fields the RMC case writes. -/
def GNSSDataStruct.rmcFields (g : GNSSDataStruct) :
    Talkkonnect.Time × String × String × String × Float64 × Float64 × Float64 × Float64 ×
      Float64 × String :=
  (g.DateTime, g.Date, g.Time, g.Validity, g.Lattitude, g.Longitude, g.Speed, g.Course,
    g.Variation, g.RMCRaw)

/-- The values the RMC case writes for the sentence `m` read at `now`. -/
def RMC.fields (now : Talkkonnect.Time) (m : RMC) :
    Talkkonnect.Time × String × String × String × Float64 × Float64 × Float64 × Float64 ×
      Float64 × String :=
  (now, m.Date, m.Time, m.Validity, m.Latitude, m.Longitude, m.Speed, m.Course,
    m.Variation, m.Raw)

/-- The Fix fields the GGA case writes. -/
def GNSSDataStruct.ggaFields (g : GNSSDataStruct) : String × Int × Float64 × Float64 :=
  (g.FixQuality, g.SatsInUse, g.HDOP, g.Altitude)

/-! ## Auxiliary definitions for the proofs -/

/-- The state a run leaves (at completion or at the panic). -/
def Run.state : Run → State
  | Run.ok st => st
  | Run.panic st => st

/-- The part of the state the GSV case never writes. -/
def State.nonGSV (st : State) : State :=
  { st with
    GSVSentenceValid := false
    GNSSData := { st.GNSSData with GSVData := GNSSDataStruct.zero.GSVData, SatsInView := 0 } }

/-- The state after the three assignments to `GNSSData.GSVData[i]`, for an
index in range. -/
def State.withSlot (st : State) (i : Nat) (e : GSVInfo) : State :=
  { st with
    GNSSData := { st.GNSSData with
      GSVData := (st.GNSSData.GSVData.set? i ⟨e.SVPRNNumber, e.SNR, e.Azimuth⟩).getD
        st.GNSSData.GSVData } }

/-- The state after `GSVSentenceValid = true; GNSSData.SatsInView = n`. -/
def State.withGSVLatch (st : State) (n : Int) : State :=
  { st with
    GSVSentenceValid := true
    GNSSData := { st.GNSSData with SatsInView := n } }

/-- The state in which the scan loop is entered when `reachesScan` holds: the
latches and `goodGPSRead` reset, the two `serial.Open` calls and the write of
the initialization payload logged. -/
def scanStart (st : State) : State :=
  { st with
    RMCSentenceValid := false
    GGASentenceValid := false
    GSVSentenceValid := false
    goodGPSRead := false
    opened := (st.opened ++ [openOptions st.Config]) ++ [openOptions st.Config]
    written :=
      if st.Config.TxData ≠ "" then st.written ++ [(hexDecodeString st.Config.TxData).getD []]
      else st.written }

/-- Two states agree on what the GSV case reads and on what it has made
final: the latch, slots 0..2, and (once the latch is set) slot 3 and
`SatsInView`. -/
def GSVRel (s1 s2 : State) : Prop :=
  s1.GSVSentenceValid = s2.GSVSentenceValid ∧
  s1.GNSSData.GSVData.e0 = s2.GNSSData.GSVData.e0 ∧
  s1.GNSSData.GSVData.e1 = s2.GNSSData.GSVData.e1 ∧
  s1.GNSSData.GSVData.e2 = s2.GNSSData.GSVData.e2 ∧
  (s1.GSVSentenceValid = true →
    s1.GNSSData.GSVData.e3 = s2.GNSSData.GSVData.e3 ∧
    s1.GNSSData.SatsInView = s2.GNSSData.SatsInView)

/-- Two states agree on everything but the Fix, and on the Fix fields of each
family whose latch is set. -/
def CycleRel (s1 s2 : State) : Prop :=
  (s1.Config = s2.Config ∧ s1.GNSSDataPublic = s2.GNSSDataPublic ∧
    s1.Receivers = s2.Receivers ∧ s1.goodGPSRead = s2.goodGPSRead ∧
    s1.opened = s2.opened ∧ s1.written = s2.written) ∧
  (s1.RMCSentenceValid = s2.RMCSentenceValid ∧
    (s1.RMCSentenceValid = true → s1.GNSSData.rmcFields = s2.GNSSData.rmcFields)) ∧
  (s1.GGASentenceValid = s2.GGASentenceValid ∧
    (s1.GGASentenceValid = true → s1.GNSSData.ggaFields = s2.GNSSData.ggaFields)) ∧
  GSVRel s1 s2

/-- Two runs end the same way, in related states when they complete. -/
def Run.Rel (R : State → State → Prop) : Run → Run → Prop
  | Run.ok a, Run.ok b => R a b
  | Run.panic _, Run.panic _ => True
  | _, _ => False

/-- The line is a GSV sentence whose entry at position `j` has `SNR > 0`. -/
def writesSlot (j : Nat) (l : ScanLine) : Bool :=
  match l.parsed with
  | some (Sentence.gsv m) =>
    match m.Info[j]? with
    | some e => decide (e.SNR > 0)
    | none => false
  | _ => false

/-! ## Concrete inputs -/

/-- The `float64` 1.0. -/
def exOne : Float64 := ⟨4607182418800017408⟩

/-- An RMC sentence with nonzero latitude and longitude. -/
def exRMC : RMC :=
  { Raw := "$GPRMC,140507,A,4916.45,N,12311.12,W,000.5,054.7,090324,020.3,E*6A"
    Time := "14:05:07.0000", Validity := "A", Latitude := exOne, Longitude := exOne
    Speed := ⟨0⟩, Course := ⟨0⟩, Date := "09/03/24", Variation := ⟨0⟩ }

/-- A GGA sentence with nonzero latitude and longitude. -/
def exGGA : GGA :=
  { Latitude := exOne, Longitude := exOne, FixQuality := "1", NumSatellites := 5
    HDOP := exOne, Altitude := exOne }

/-- A GSV sentence with 4 entries; the entries at index 1 and 3 have `SNR > 0`. -/
def exGSV : GSV :=
  { NumberSVsInView := 9
    Info := [⟨1, 10, 100, 0⟩, ⟨2, 20, 200, 5⟩, ⟨3, 30, 300, 0⟩, ⟨4, 40, 70, 9⟩] }

/-- A GSV value with 5 entries, only the one at index 4 having `SNR > 0`. -/
def exGSV5 : GSV :=
  { NumberSVsInView := 9
    Info := [⟨1, 10, 100, 0⟩, ⟨2, 20, 200, 0⟩, ⟨3, 30, 300, 0⟩, ⟨4, 40, 70, 0⟩, ⟨5, 50, 80, 7⟩] }

/-- A clock reading: 2024-03-09 14:05:07 UTC. -/
def exTime : Time := ⟨2024, 3, 9, 14, 5, 7⟩

/-- A valid configuration: receive only, no parity, no initialization payload. -/
def exConfig : GPSConfig :=
  { Enabled := true, Port := "/dev/ttyUSB0", Baud := 9600, DataBits := 8, StopBits := 1
    MinRead := 1, CharTimeOut := 0, Even := false, Odd := false, Rs485 := false
    Rs485HighDuringSend := false, Rs485HighAfterSend := false, TxData := "", Rx := true }

/-- A state before the first cycle: empty Fix, empty channel, two consumers. -/
def exState : State :=
  { Config := exConfig, GNSSData := GNSSDataStruct.zero, GNSSDataPublic := []
    RMCSentenceValid := false, GGASentenceValid := false, GSVSentenceValid := false
    goodGPSRead := false, Receivers := 2, opened := [], written := [] }

/-- A complete cycle: an RMC, an undecodable line, a GGA and a 4-entry GSV. -/
def exWorld : World :=
  { openOk := true, writeOk := true, rxOpenOk := true
    lines := [⟨exTime, some (Sentence.rmc exRMC)⟩, ⟨exTime, none⟩,
      ⟨exTime, some (Sentence.gga exGGA)⟩, ⟨exTime, some (Sentence.gsv exGSV)⟩] }

/-- A 4-entry GSV sentence in which only the entry at index 3 has `SNR > 0`. -/
def exGSVlast : GSV :=
  { NumberSVsInView := 7
    Info := [⟨11, 10, 100, 0⟩, ⟨12, 20, 200, 0⟩, ⟨13, 30, 300, 0⟩, ⟨14, 40, 170, 8⟩] }

/-- A later complete cycle whose GSV sentence writes slot 3 only. -/
def exWorldNext : World :=
  { openOk := true, writeOk := true, rxOpenOk := true
    lines := [⟨exTime, some (Sentence.rmc exRMC)⟩, ⟨exTime, some (Sentence.gga exGGA)⟩,
      ⟨exTime, some (Sentence.gsv exGSVlast)⟩] }

/-- A Traccar configuration with client id `ABC123`. -/
def exTraccar : TraccarConfig :=
  { ClientId := "ABC123", OsmandServerURL := "http://traccar.example", OsmandPort := "5055"
    T55ServerIP := "192.0.2.1", T55Port := "5005"
    OpengtsServerURL := "http://traccar.example", OpengtsPort := "5159" }

/-- A Fix whose raw position sentence is `$GPRMC,...*6A`. -/
def exFixA : GNSSDataStruct :=
  { GNSSDataStruct.zero with RMCRaw := "$GPRMC,...*6A", DateTime := exTime }

/-- A second Fix, with another raw position sentence. -/
def exFixB : GNSSDataStruct :=
  { GNSSDataStruct.zero with RMCRaw := "$GPRMC,...*6B", DateTime := exTime }

/-- A session the server ends at once (the reader gets `io.EOF`). -/
def exSessionEOF : T55Session :=
  { dialOk := true, setupOk := true, events := [Notify.eof] }

/-- A state in the middle of a cycle, all three latches set. -/
def exLatched : State :=
  { exState with
    RMCSentenceValid := true, GGASentenceValid := true, GSVSentenceValid := true }

/-- The state the first cycle `exWorld` leaves. -/
def exStateAfter : State := (getGpsPosition exWorld exState).2

/-- A Fix that shares only the observation array with the one the first cycle
left. -/
def exFixOther : GNSSDataStruct :=
  { GNSSDataStruct.zero with GSVData := exStateAfter.GNSSData.GSVData }

/-- The valid configuration, but with both parities requested. -/
def exStateBothParities : State :=
  { exState with Config := { exConfig with Even := true, Odd := true } }

/-! ## Basic facts about the loops -/

theorem sendLoop_eq (f : GNSSDataStruct) (n : Nat) (ch : List GNSSDataStruct) :
    sendLoop f n ch = ch ++ List.replicate n f := by
  induction n generalizing ch with
  | zero => simp [sendLoop]
  | succ n ih =>
    rw [sendLoop, ih, List.replicate_succ, List.append_assoc]
    rfl

/-- With the satellite latch set the loop over `m.Info` changes nothing and
cannot panic, whatever the number of entries. -/
theorem gsvLoop_latched (m : GSV) (rest : List GSVInfo) (i : Nat) (st : State)
    (h : st.GSVSentenceValid = true) : gsvLoop m rest i st = Run.ok st := by
  induction rest generalizing i with
  | nil => rfl
  | cons e rest ih =>
    have he : gsvEntry m i e st = Run.ok st := by simp [gsvEntry, h]
    rw [gsvLoop, he]
    exact ih (i + 1)

theorem gsvEntry_frame (m : GSV) (i : Nat) (e : GSVInfo) (st : State) :
    (gsvEntry m i e st).state.nonGSV = st.nonGSV := by
  unfold gsvEntry
  split
  · split
    · rfl
    · split <;> rfl
  · rfl

theorem gsvLoop_frame (m : GSV) (rest : List GSVInfo) (i : Nat) (st : State) :
    (gsvLoop m rest i st).state.nonGSV = st.nonGSV := by
  induction rest generalizing i st with
  | nil => rfl
  | cons e rest ih =>
    rw [gsvLoop]
    have h := gsvEntry_frame m i e st
    cases hr : gsvEntry m i e st with
    | ok st1 =>
      rw [hr] at h
      simp only [Run.state] at h
      simp only
      rw [ih, h]
    | panic st1 =>
      rw [hr] at h
      simpa [Run.state] using h

/-- Beyond the array (index 4 and up) an entry is either skipped or panics. -/
theorem gsvLoop_high (m : GSV) (rest : List GSVInfo) (i : Nat) (st st' : State)
    (hi : 4 ≤ i) (h : gsvLoop m rest i st = Run.ok st') :
    st' = st ∧ (st.GSVSentenceValid = false → rest.any (fun e => decide (e.SNR > 0)) = false) := by
  induction rest generalizing i with
  | nil =>
    simp only [gsvLoop, Run.ok.injEq] at h
    simp [h]
  | cons e rest ih =>
    rw [gsvLoop] at h
    by_cases hc : (decide (e.SNR > 0) && !st.GSVSentenceValid) = true
    · have hs : st.GNSSData.GSVData.set? i ⟨e.SVPRNNumber, e.SNR, e.Azimuth⟩ = none := by
        obtain ⟨k, rfl⟩ : ∃ k, i = k + 4 := ⟨i - 4, by omega⟩
        rfl
      simp [gsvEntry, hc, hs] at h
    · have he : gsvEntry m i e st = Run.ok st := by simp [gsvEntry, hc]
      rw [he] at h
      obtain ⟨h1, h2⟩ := ih (i + 1) (by omega) h
      refine ⟨h1, fun hv => ?_⟩
      simp only [hv, Bool.not_false, Bool.and_true, decide_eq_true_eq] at hc
      simp [h2 hv, hc]

/-- With at most four entries in all (`rest` being `m.Info[i:]`) the loop over
`m.Info` does not panic. -/
theorem gsvLoop_total (m : GSV) (rest : List GSVInfo) (i : Nat) (st : State)
    (hlen : rest.length + i ≤ 4) : ∃ st', gsvLoop m rest i st = Run.ok st' := by
  induction rest generalizing i st with
  | nil => exact ⟨st, rfl⟩
  | cons e rest ih =>
    simp only [List.length_cons] at hlen
    have hi : i = 0 ∨ i = 1 ∨ i = 2 ∨ i = 3 := by omega
    have he : ∃ st1, gsvEntry m i e st = Run.ok st1 := by
      unfold gsvEntry
      rcases hi with rfl | rfl | rfl | rfl <;>
        by_cases hc : (decide (e.SNR > 0) && !st.GSVSentenceValid) = true <;>
        simp [hc, GSVArray.set?]
    obtain ⟨st1, h1⟩ := he
    rw [gsvLoop, h1]
    exact ih (i + 1) st1 (by omega)

/-- The body of the loop over `m.Info`, by cases on the index. -/
theorem gsvEntry_eq (m : GSV) (i : Nat) (e : GSVInfo) (st : State) :
    gsvEntry m i e st =
      if e.SNR > 0 ∧ st.GSVSentenceValid = false then
        if i < 3 then Run.ok (st.withSlot i e)
        else if i = 3 then Run.ok ((st.withSlot 3 e).withGSVLatch m.NumberSVsInView)
        else Run.panic st
      else Run.ok st := by
  by_cases hc : e.SNR > 0 ∧ st.GSVSentenceValid = false
  · obtain ⟨hs, hv⟩ := hc
    rcases (show i = 0 ∨ i = 1 ∨ i = 2 ∨ i = 3 ∨ 4 ≤ i by omega) with rfl | rfl | rfl | rfl | hi
    · simp [gsvEntry, hs, hv, GSVArray.set?, State.withSlot]
    · simp [gsvEntry, hs, hv, GSVArray.set?, State.withSlot]
    · simp [gsvEntry, hs, hv, GSVArray.set?, State.withSlot]
    · simp [gsvEntry, hs, hv, GSVArray.set?, State.withSlot, State.withGSVLatch]
    · obtain ⟨k, rfl⟩ : ∃ k, i = k + 4 := ⟨i - 4, by omega⟩
      have h1 : ¬ (k + 4 < 3) := by omega
      simp [gsvEntry, hs, hv, GSVArray.set?, h1]
  · have hc' : (decide (e.SNR > 0) && !st.GSVSentenceValid) = false := by
      cases hv : st.GSVSentenceValid <;> simp_all
    simp [gsvEntry, hc, hc']

/-- Starting with the satellite latch unset, a completed loop over `m.Info`
leaves the latch set exactly when an entry at index 3 or more has `SNR > 0`. -/
theorem gsvLoop_latch (m : GSV) (rest : List GSVInfo) (i : Nat) (st st' : State)
    (hv : st.GSVSentenceValid = false) (h : gsvLoop m rest i st = Run.ok st') :
    st'.GSVSentenceValid = (rest.drop (3 - i)).any (fun e => decide (e.SNR > 0)) := by
  induction rest generalizing i st with
  | nil =>
    simp only [gsvLoop, Run.ok.injEq] at h
    simp [← h, hv]
  | cons e rest ih =>
    by_cases hi : 4 ≤ i
    · obtain ⟨h1, h2⟩ := gsvLoop_high m (e :: rest) i st st' hi h
      have h3 : 3 - i = 0 := by omega
      rw [h1, hv, h3, List.drop_zero, h2 hv]
    · rw [gsvLoop, gsvEntry_eq] at h
      by_cases hs : e.SNR > 0
      · simp only [hs, hv, and_self, if_true] at h
        by_cases h3 : i < 3
        · simp only [h3, if_true] at h
          have := ih (i + 1) (st.withSlot i e) hv h
          rw [this]
          obtain ⟨k, hk⟩ : ∃ k, 3 - i = k + 1 := ⟨2 - i, by omega⟩
          have hk' : 3 - (i + 1) = k := by omega
          rw [hk, hk', List.drop_succ_cons]
        · have h3' : i = 3 := by omega
          subst h3'
          simp only [lt_self_iff_false, if_false, if_true] at h
          rw [gsvLoop_latched m rest 4 _ rfl] at h
          simp only [Run.ok.injEq] at h
          simp [← h, hs, State.withGSVLatch]
      · simp only [hs, false_and, if_false] at h
        have := ih (i + 1) st hv h
        rw [this]
        by_cases h3 : i < 3
        · obtain ⟨k, hk⟩ : ∃ k, 3 - i = k + 1 := ⟨2 - i, by omega⟩
          have hk' : 3 - (i + 1) = k := by omega
          rw [hk, hk', List.drop_succ_cons]
        · have h3' : i = 3 := by omega
          subst h3'
          simp [hs]

/-- Starting with the satellite latch unset, when a completed loop over
`m.Info` leaves the latch set, slot 3 holds an observation with `SNR > 0` and
`SatsInView` is the sentence's count. -/
theorem gsvLoop_slot3 (m : GSV) (rest : List GSVInfo) (i : Nat) (st st' : State)
    (hv : st.GSVSentenceValid = false) (h : gsvLoop m rest i st = Run.ok st')
    (hv' : st'.GSVSentenceValid = true) :
    0 < st'.GNSSData.GSVData.e3.SNR ∧ st'.GNSSData.SatsInView = m.NumberSVsInView := by
  induction rest generalizing i st with
  | nil =>
    simp only [gsvLoop, Run.ok.injEq] at h
    rw [← h, hv] at hv'
    exact absurd hv' (by decide)
  | cons e rest ih =>
    rw [gsvLoop, gsvEntry_eq] at h
    by_cases hs : e.SNR > 0
    · simp only [hs, hv, and_self, if_true] at h
      by_cases h3 : i < 3
      · simp only [h3, if_true] at h
        exact ih (i + 1) (st.withSlot i e) hv h
      · by_cases h3' : i = 3
        · subst h3'
          simp only [lt_self_iff_false, if_false, if_true] at h
          rw [gsvLoop_latched m rest 4 _ rfl] at h
          simp only [Run.ok.injEq] at h
          rw [← h]
          simpa [State.withGSVLatch, State.withSlot, GSVArray.set?] using hs
        · simp [h3, h3'] at h
    · simp only [hs, false_and, if_false] at h
      exact ih (i + 1) st hv h

/-! ## One iteration of the scan loop -/

/-- An iteration never touches the configuration, the channel, the consumer
count, `goodGPSRead` or the serial log (also when it panics). -/
theorem scanStep_env (st : State) (l : ScanLine) :
    (scanStep st l).state.Config = st.Config ∧
    (scanStep st l).state.GNSSDataPublic = st.GNSSDataPublic ∧
    (scanStep st l).state.Receivers = st.Receivers ∧
    (scanStep st l).state.goodGPSRead = st.goodGPSRead ∧
    (scanStep st l).state.opened = st.opened ∧
    (scanStep st l).state.written = st.written := by
  rcases l with ⟨now, _ | m | m | m | _⟩
  · simp [scanStep, Run.state]
  · simp only [scanStep, Run.state, caseRMC]
    split <;> simp
  · simp only [scanStep, Run.state, caseGGA]
    split <;> simp
  · simp only [scanStep, caseGSV]
    have h := gsvLoop_frame m m.Info 0 st
    have h1 := congrArg State.Config h
    have h2 := congrArg State.GNSSDataPublic h
    have h3 := congrArg State.Receivers h
    have h4 := congrArg State.goodGPSRead h
    have h5 := congrArg State.opened h
    have h6 := congrArg State.written h
    exact ⟨h1, h2, h3, h4, h5, h6⟩
  · simp [scanStep, Run.state]

/-- The RMC latch after an iteration, and the RMC fields of the Fix: written
from the sentence when it is accepted with the latch unset, kept otherwise. -/
theorem scanStep_rmc (st : State) (l : ScanLine) :
    (scanStep st l).state.RMCSentenceValid = (st.RMCSentenceValid || acceptedRMC l) ∧
    (scanStep st l).state.GNSSData.rmcFields =
      (match l.parsed with
        | some (Sentence.rmc m) =>
          if acceptedRMC l = true ∧ st.RMCSentenceValid = false then RMC.fields l.now m
          else st.GNSSData.rmcFields
        | _ => st.GNSSData.rmcFields) := by
  rcases l with ⟨now, _ | m | m | m | _⟩
  · simp [scanStep, Run.state, acceptedRMC]
  · simp only [scanStep, Run.state, caseRMC, acceptedRMC]
    rcases Bool.eq_false_or_eq_true st.RMCSentenceValid with hv | hv <;>
      rcases Bool.eq_false_or_eq_true m.Latitude.ne0 with h1 | h1 <;>
      rcases Bool.eq_false_or_eq_true m.Longitude.ne0 with h2 | h2 <;>
      simp [hv, h1, h2, GNSSDataStruct.rmcFields, RMC.fields]
  · simp only [scanStep, Run.state, caseGGA, acceptedRMC]
    split <;> simp [GNSSDataStruct.rmcFields]
  · simp only [scanStep, caseGSV, acceptedRMC, Bool.or_false]
    have h := gsvLoop_frame m m.Info 0 st
    have h1 := congrArg State.RMCSentenceValid h
    refine ⟨h1, ?_⟩
    have h2 := congrArg (fun s => s.GNSSData.rmcFields) h
    simpa [State.nonGSV, GNSSDataStruct.rmcFields] using h2
  · simp [scanStep, Run.state, acceptedRMC]

/-- The GGA latch after an iteration; with the latch set the GGA fields of the
Fix are kept. -/
theorem scanStep_gga (st : State) (l : ScanLine) :
    (scanStep st l).state.GGASentenceValid = (st.GGASentenceValid || acceptedGGA l) ∧
    (scanStep st l).state.GNSSData.ggaFields =
      (match l.parsed with
        | some (Sentence.gga m) =>
          if acceptedGGA l = true ∧ st.GGASentenceValid = false then
            (m.FixQuality, m.NumSatellites, m.HDOP, m.Altitude)
          else st.GNSSData.ggaFields
        | _ => st.GNSSData.ggaFields) := by
  rcases l with ⟨now, _ | m | m | m | _⟩
  · simp [scanStep, Run.state, acceptedGGA]
  · simp only [scanStep, Run.state, caseRMC, acceptedGGA]
    split <;> simp [GNSSDataStruct.ggaFields]
  · simp only [scanStep, Run.state, caseGGA, acceptedGGA]
    rcases Bool.eq_false_or_eq_true st.GGASentenceValid with hv | hv <;>
      rcases Bool.eq_false_or_eq_true m.Latitude.ne0 with h1 | h1 <;>
      rcases Bool.eq_false_or_eq_true m.Longitude.ne0 with h2 | h2 <;>
      simp [hv, h1, h2, GNSSDataStruct.ggaFields]
  · simp only [scanStep, caseGSV, acceptedGGA, Bool.or_false]
    have h := gsvLoop_frame m m.Info 0 st
    have h1 := congrArg State.GGASentenceValid h
    refine ⟨h1, ?_⟩
    have h2 := congrArg (fun s => s.GNSSData.ggaFields) h
    simpa [State.nonGSV, GNSSDataStruct.ggaFields] using h2
  · simp [scanStep, Run.state, acceptedGGA]

/-- The GSV latch after an iteration that completes. -/
theorem scanStep_gsv (st st' : State) (l : ScanLine) (h : scanStep st l = Run.ok st') :
    st'.GSVSentenceValid = (st.GSVSentenceValid || acceptedGSV l) := by
  rcases l with ⟨now, _ | m | m | m | _⟩
  · simp only [scanStep, Run.ok.injEq] at h
    simp [← h, acceptedGSV]
  · simp only [scanStep, Run.ok.injEq, caseRMC] at h
    rw [← h]
    split <;> simp [acceptedGSV]
  · simp only [scanStep, Run.ok.injEq, caseGGA] at h
    rw [← h]
    split <;> simp [acceptedGSV]
  · simp only [scanStep, caseGSV] at h
    cases hv : st.GSVSentenceValid with
    | true =>
      rw [gsvLoop_latched m m.Info 0 st hv] at h
      simp only [Run.ok.injEq] at h
      simp [← h, hv]
    | false =>
      have := gsvLoop_latch m m.Info 0 st st' hv h
      simpa [acceptedGSV] using this
  · simp only [scanStep, Run.ok.injEq] at h
    simp [← h, acceptedGSV]

/-- An iteration on a line whose GSV sentence (if it is one) carries at most
4 entries completes. -/
theorem scanStep_total (st : State) (l : ScanLine) (h4 : gsvWithin4 l = true) :
    ∃ st', scanStep st l = Run.ok st' := by
  rcases l with ⟨now, _ | m | m | m | _⟩
  · exact ⟨_, rfl⟩
  · exact ⟨_, rfl⟩
  · exact ⟨_, rfl⟩
  · simp only [gsvWithin4, decide_eq_true_eq] at h4
    exact gsvLoop_total m m.Info 0 st (by omega)
  · exact ⟨_, rfl⟩

/-- An iteration keeps the invariant "satellite latch set implies slot 3 holds
an observation with `SNR > 0`". -/
theorem scanStep_slot3 (st st' : State) (l : ScanLine) (h : scanStep st l = Run.ok st')
    (inv : st.GSVSentenceValid = true → 0 < st.GNSSData.GSVData.e3.SNR) :
    st'.GSVSentenceValid = true → 0 < st'.GNSSData.GSVData.e3.SNR := by
  rcases l with ⟨now, _ | m | m | m | _⟩
  · simp only [scanStep, Run.ok.injEq] at h
    rw [← h]
    exact inv
  · simp only [scanStep, Run.ok.injEq, caseRMC] at h
    rw [← h]
    split <;> exact inv
  · simp only [scanStep, Run.ok.injEq, caseGGA] at h
    rw [← h]
    split <;> exact inv
  · simp only [scanStep, caseGSV] at h
    rcases Bool.eq_false_or_eq_true st.GSVSentenceValid with hv | hv
    · rw [gsvLoop_latched m m.Info 0 st hv] at h
      simp only [Run.ok.injEq] at h
      rw [← h]
      exact inv
    · intro hv'
      exact (gsvLoop_slot3 m m.Info 0 st st' hv h hv').1
  · simp only [scanStep, Run.ok.injEq] at h
    rw [← h]
    exact inv

/-! ## The scan loop -/

theorem scanLoop_env (ls : List ScanLine) (st : State) :
    (scanLoop ls st).state.Config = st.Config ∧
    (scanLoop ls st).state.GNSSDataPublic = st.GNSSDataPublic ∧
    (scanLoop ls st).state.Receivers = st.Receivers ∧
    (scanLoop ls st).state.goodGPSRead = st.goodGPSRead ∧
    (scanLoop ls st).state.opened = st.opened ∧
    (scanLoop ls st).state.written = st.written := by
  induction ls generalizing st with
  | nil => simp [scanLoop, Run.state]
  | cons l ls ih =>
    have h := scanStep_env st l
    rw [scanLoop]
    cases hr : scanStep st l with
    | ok st1 =>
      rw [hr] at h
      simp only [Run.state] at h
      obtain ⟨h1, h2, h3, h4, h5, h6⟩ := h
      obtain ⟨g1, g2, g3, g4, g5, g6⟩ := ih st1
      exact ⟨g1.trans h1, g2.trans h2, g3.trans h3, g4.trans h4, g5.trans h5, g6.trans h6⟩
    | panic st1 =>
      rw [hr] at h
      exact h

/-- No GSV sentence beyond 4 entries: the scan loop completes. -/
theorem scanLoop_total (ls : List ScanLine) (st : State) (h4 : ls.all gsvWithin4 = true) :
    ∃ st', scanLoop ls st = Run.ok st' := by
  induction ls generalizing st with
  | nil => exact ⟨st, rfl⟩
  | cons l ls ih =>
    simp only [List.all_cons, Bool.and_eq_true] at h4
    obtain ⟨st1, h1⟩ := scanStep_total st l h4.1
    rw [scanLoop, h1]
    exact ih st1 h4.2

/-- The latches after a completed scan loop. -/
theorem scanLoop_latches (ls : List ScanLine) (st st' : State) (h : scanLoop ls st = Run.ok st') :
    st'.RMCSentenceValid = (st.RMCSentenceValid || ls.any acceptedRMC) ∧
    st'.GGASentenceValid = (st.GGASentenceValid || ls.any acceptedGGA) ∧
    st'.GSVSentenceValid = (st.GSVSentenceValid || ls.any acceptedGSV) := by
  induction ls generalizing st with
  | nil =>
    simp only [scanLoop, Run.ok.injEq] at h
    simp [← h]
  | cons l ls ih =>
    rw [scanLoop] at h
    cases hr : scanStep st l with
    | ok st1 =>
      rw [hr] at h
      have h1 := (scanStep_rmc st l).1
      have h2 := (scanStep_gga st l).1
      have h3 := scanStep_gsv st st1 l hr
      rw [hr] at h1 h2
      simp only [Run.state] at h1 h2
      obtain ⟨g1, g2, g3⟩ := ih st1 h
      rw [g1, g2, g3, h1, h2, h3]
      simp [Bool.or_assoc]
    | panic st1 =>
      rw [hr] at h
      exact absurd h (by simp)

/-- The RMC fields of the Fix after a completed scan loop: with the latch
unset at the start they are those of the first accepted RMC sentence, if any. -/
theorem scanLoop_rmc (ls : List ScanLine) (st st' : State) (h : scanLoop ls st = Run.ok st') :
    st'.GNSSData.rmcFields =
      if st.RMCSentenceValid = true then st.GNSSData.rmcFields
      else match firstRMC ls with
        | some (now, m) => RMC.fields now m
        | none => st.GNSSData.rmcFields := by
  induction ls generalizing st with
  | nil =>
    simp only [scanLoop, Run.ok.injEq] at h
    simp [← h, firstRMC]
  | cons l ls ih =>
    rw [scanLoop] at h
    cases hr : scanStep st l with
    | ok st1 =>
      rw [hr] at h
      obtain ⟨h1, h2⟩ := scanStep_rmc st l
      rw [hr] at h1 h2
      simp only [Run.state] at h1 h2
      rw [ih st1 h, h1, h2]
      rcases l with ⟨now, _ | m | m | m | _⟩ <;>
        rcases Bool.eq_false_or_eq_true st.RMCSentenceValid with hv | hv <;>
        simp [hv, acceptedRMC, firstRMC]
      by_cases ha : m.Latitude.ne0 = true ∧ m.Longitude.ne0 = true
      · simp [ha]
      · simp only [ha, if_false]
    | panic st1 =>
      rw [hr] at h
      exact absurd h (by simp)

/-- After a completed scan loop the invariant "satellite latch set implies
slot 3 holds an observation with `SNR > 0`" still holds. -/
theorem scanLoop_slot3 (ls : List ScanLine) (st st' : State) (h : scanLoop ls st = Run.ok st')
    (inv : st.GSVSentenceValid = true → 0 < st.GNSSData.GSVData.e3.SNR) :
    st'.GSVSentenceValid = true → 0 < st'.GNSSData.GSVData.e3.SNR := by
  induction ls generalizing st with
  | nil =>
    simp only [scanLoop, Run.ok.injEq] at h
    rw [← h]
    exact inv
  | cons l ls ih =>
    rw [scanLoop] at h
    cases hr : scanStep st l with
    | ok st1 =>
      rw [hr] at h
      exact ih st1 h (scanStep_slot3 st st1 l hr inv)
    | panic st1 =>
      rw [hr] at h
      exact absurd h (by simp)

/-! ## `getGpsPosition` around the scan loop -/

/-- When the call gets as far as the scan loop, it is the scan loop followed
by the publish step. -/
theorem getGpsPosition_scan (w : World) (st : State) (hr : reachesScan w st.Config = true) :
    getGpsPosition w st =
      match scanLoop w.lines (scanStart st) with
      | Run.panic st2 => (Outcome.panic, st2)
      | Run.ok st2 => (Outcome.ret (broadcast st2).goodGPSRead none, broadcast st2) := by
  simp only [reachesScan, Bool.and_eq_true, Bool.or_eq_true, bne_iff_ne, ne_eq,
    Bool.not_eq_true', beq_iff_eq] at hr
  obtain ⟨⟨⟨⟨⟨⟨h1, h2⟩, h3⟩, h4⟩, h5⟩, h6⟩, h7⟩ := hr
  by_cases ht : st.Config.TxData = ""
  · simp [getGpsPosition, receive, scanStart, h1, h2, h3, h4, h6, h7, ht]
  · rcases h5 with h5 | ⟨h5, h8⟩
    · exact absurd h5 ht
    · obtain ⟨tx, htx⟩ := Option.isSome_iff_exists.mp h5
      simp [getGpsPosition, receive, scanStart, h1, h2, h3, h4, h6, h7, ht, htx, h8]

/-- A call that returns `(true, nil)` got as far as the scan loop. -/
theorem reachesScan_of_true (w : World) (st : State)
    (h : (getGpsPosition w st).1 = Outcome.ret true none) : reachesScan w st.Config = true := by
  unfold getGpsPosition at h
  simp only at h
  split at h
  · split at h
    · simp at h
    · split at h
      · simp at h
      · split at h
        · simp at h
        · rename_i h1 h2 h3 h4
          split at h
          · split at h
            · simp at h
            · split at h
              · simp at h
              · rename_i h5 tx htx h6
                unfold receive at h
                simp only at h
                split at h
                · split at h
                  · simp at h
                  · rename_i h7 h8
                    simp_all [reachesScan]
                    by_cases he : st.Config.Even = true
                    · exact Or.inr (h3 he)
                    · exact Or.inl (by simpa using he)
                · simp at h
          · rename_i h5
            unfold receive at h
            simp only at h
            split at h
            · split at h
              · simp at h
              · rename_i h7 h8
                simp_all [reachesScan]
                by_cases he : st.Config.Even = true
                · exact Or.inr (h3 he)
                · exact Or.inl (by simpa using he)
            · simp at h
  · simp at h

/-! ## Which slot an entry lands in -/

theorem withSlot_get (st : State) (i j : Nat) (e : GSVInfo) (hi : i < 4) (hj : j < 4) :
    (st.withSlot i e).GNSSData.GSVData.get? j =
      if j = i then some ⟨e.SVPRNNumber, e.SNR, e.Azimuth⟩ else st.GNSSData.GSVData.get? j := by
  interval_cases i <;> interval_cases j <;> simp [State.withSlot, GSVArray.set?, GSVArray.get?]

/-- Slot `j` after a completed loop over `m.Info[i:]`: the entry at index `j`
when that entry has `SNR > 0` and the latch was unset on entry, the former
content otherwise. -/
theorem gsvLoop_slot (m : GSV) (rest : List GSVInfo) (i j : Nat) (st st' : State) (hj : j < 4)
    (h : gsvLoop m rest i st = Run.ok st') :
    st'.GNSSData.GSVData.get? j =
      if st.GSVSentenceValid = false ∧ i ≤ j then
        match rest[j - i]? with
        | some e =>
          if e.SNR > 0 then some ⟨e.SVPRNNumber, e.SNR, e.Azimuth⟩
          else st.GNSSData.GSVData.get? j
        | none => st.GNSSData.GSVData.get? j
      else st.GNSSData.GSVData.get? j := by
  induction rest generalizing i st with
  | nil =>
    simp only [gsvLoop, Run.ok.injEq] at h
    simp [← h]
  | cons e rest ih =>
    rcases Bool.eq_false_or_eq_true st.GSVSentenceValid with hv | hv
    · rw [gsvLoop_latched m (e :: rest) i st hv] at h
      simp only [Run.ok.injEq] at h
      simp [← h, hv]
    · by_cases hi : 4 ≤ i
      · obtain ⟨h1, -⟩ := gsvLoop_high m (e :: rest) i st st' hi h
        have : ¬ (i ≤ j) := by omega
        simp [h1, this]
      · rw [gsvLoop, gsvEntry_eq] at h
        by_cases hs : e.SNR > 0
        · simp only [hs, hv, and_self, if_true] at h
          by_cases h3 : i < 3
          · simp only [h3, if_true] at h
            have hv1 : (st.withSlot i e).GSVSentenceValid = false := hv
            rw [ih (i + 1) (st.withSlot i e) h, withSlot_get st i j e (by omega) hj]
            simp only [hv1, hv, true_and]
            rcases Nat.lt_trichotomy j i with hlt | heq | hgt
            · have a1 : ¬ (i + 1 ≤ j) := by omega
              have a2 : ¬ (i ≤ j) := by omega
              have a3 : ¬ (j = i) := by omega
              simp [a1, a2, a3]
            · subst heq
              simp [hs]
            · obtain ⟨k, rfl⟩ : ∃ k, j = i + 1 + k := ⟨j - (i + 1), by omega⟩
              have a1 : i + 1 ≤ i + 1 + k := by omega
              have a2 : i ≤ i + 1 + k := by omega
              have a3 : ¬ (i + 1 + k = i) := by omega
              have a4 : i + 1 + k - (i + 1) = k := by omega
              have a5 : i + 1 + k - i = k + 1 := by omega
              simp [a1, a2, a3, a4, a5]
          · have h3' : i = 3 := by omega
            subst h3'
            simp only [lt_self_iff_false, if_false, if_true] at h
            rw [gsvLoop_latched m rest 4 _ rfl] at h
            simp only [Run.ok.injEq] at h
            have hg : st'.GNSSData.GSVData = (st.withSlot 3 e).GNSSData.GSVData := by
              rw [← h]
              rfl
            rw [hg, withSlot_get st 3 j e (by omega) hj]
            by_cases hj3 : j = 3
            · subst hj3
              simp [hv, hs]
            · have a2 : ¬ (3 ≤ j) := by omega
              simp [hj3, a2]
        · simp only [hs, false_and, if_false] at h
          rw [ih (i + 1) st h]
          simp only [hv, true_and]
          rcases Nat.lt_trichotomy j i with hlt | heq | hgt
          · have a1 : ¬ (i + 1 ≤ j) := by omega
            have a2 : ¬ (i ≤ j) := by omega
            simp [a1, a2]
          · subst heq
            simp [hs]
          · obtain ⟨k, rfl⟩ : ∃ k, j = i + 1 + k := ⟨j - (i + 1), by omega⟩
            have a1 : i + 1 ≤ i + 1 + k := by omega
            have a2 : i ≤ i + 1 + k := by omega
            have a4 : i + 1 + k - (i + 1) = k := by omega
            have a5 : i + 1 + k - i = k + 1 := by omega
            simp [a1, a2, a4, a5]

/-! ## The first accepted RMC sentence -/

theorem firstRMC_ne0 (ls : List ScanLine) (now : Time) (m : RMC)
    (h : firstRMC ls = some (now, m)) : m.Latitude.ne0 = true ∧ m.Longitude.ne0 = true := by
  induction ls with
  | nil => simp [firstRMC] at h
  | cons l ls ih =>
    rcases l with ⟨t, _ | r | r | r | _⟩
    · exact ih (by simpa [firstRMC] using h)
    · by_cases ha : r.Latitude.ne0 = true ∧ r.Longitude.ne0 = true
      · simp only [firstRMC, ha, Bool.and_self, if_true, Option.some.injEq, Prod.mk.injEq] at h
        rw [← h.2]
        exact ha
      · have ha' : (r.Latitude.ne0 && r.Longitude.ne0) = false := by
          rcases Bool.eq_false_or_eq_true r.Latitude.ne0 with h1 | h1 <;>
            rcases Bool.eq_false_or_eq_true r.Longitude.ne0 with h2 | h2 <;> simp_all
        exact ih (by simpa [firstRMC, ha'] using h)
    · exact ih (by simpa [firstRMC] using h)
    · exact ih (by simpa [firstRMC] using h)
    · exact ih (by simpa [firstRMC] using h)

theorem firstRMC_of_any (ls : List ScanLine) (h : ls.any acceptedRMC = true) :
    ∃ now m, firstRMC ls = some (now, m) := by
  induction ls with
  | nil => simp at h
  | cons l ls ih =>
    simp only [List.any_cons, Bool.or_eq_true] at h
    rcases l with ⟨t, _ | r | r | r | _⟩
    · exact ih (by simpa [acceptedRMC] using h)
    · rcases Bool.eq_false_or_eq_true (r.Latitude.ne0 && r.Longitude.ne0) with ha | ha
      · exact ⟨t, r, by simp [firstRMC, ha]⟩
      · simp only [acceptedRMC, ha, Bool.false_eq_true, false_or] at h
        obtain ⟨now, m, hm⟩ := ih h
        exact ⟨now, m, by simp [firstRMC, ha, hm]⟩
    · exact ih (by simpa [acceptedRMC] using h)
    · exact ih (by simpa [acceptedRMC] using h)
    · exact ih (by simpa [acceptedRMC] using h)

/-! ## Two runs from different Fix contents -/

theorem withSlot_rel (s1 s2 : State) (i : Nat) (e : GSVInfo) (hi : i < 3)
    (hv : s1.GSVSentenceValid = false) (h : GSVRel s1 s2) :
    GSVRel (s1.withSlot i e) (s2.withSlot i e) := by
  obtain ⟨r0, r1, r2, r3, _⟩ := h
  have hv1 : (s1.withSlot i e).GSVSentenceValid = false := hv
  refine ⟨r0, ?_, ?_, ?_, fun hc => ?_⟩
  · interval_cases i <;> simp [State.withSlot, GSVArray.set?, r1]
  · interval_cases i <;> simp [State.withSlot, GSVArray.set?, r2]
  · interval_cases i <;> simp [State.withSlot, GSVArray.set?, r3]
  · rw [hv1] at hc
    exact absurd hc (by decide)

theorem withGSVLatch_rel (s1 s2 : State) (e : GSVInfo) (n : Int) (h : GSVRel s1 s2) :
    GSVRel ((s1.withSlot 3 e).withGSVLatch n) ((s2.withSlot 3 e).withGSVLatch n) := by
  obtain ⟨_, r1, r2, r3, _⟩ := h
  refine ⟨rfl, ?_, ?_, ?_, fun _ => ⟨?_, ?_⟩⟩ <;>
    simp [State.withSlot, State.withGSVLatch, GSVArray.set?, r1, r2, r3]

/-- The loop over `m.Info` from two related states ends the same way, in
related states. -/
theorem gsvLoop_rel (m : GSV) (rest : List GSVInfo) (i : Nat) (s1 s2 : State)
    (h : GSVRel s1 s2) : Run.Rel GSVRel (gsvLoop m rest i s1) (gsvLoop m rest i s2) := by
  induction rest generalizing i s1 s2 with
  | nil => exact h
  | cons e rest ih =>
    have hl : s2.GSVSentenceValid = s1.GSVSentenceValid := h.1.symm
    rw [gsvLoop, gsvLoop, gsvEntry_eq, gsvEntry_eq, hl]
    by_cases hc : e.SNR > 0 ∧ s1.GSVSentenceValid = false
    · simp only [hc, and_self, if_true]
      by_cases h3 : i < 3
      · simp only [h3, if_true]
        exact ih (i + 1) _ _ (withSlot_rel s1 s2 i e h3 hc.2 h)
      · by_cases h3' : i = 3
        · subst h3'
          simp only [lt_self_iff_false, if_false, if_true]
          exact ih 4 _ _ (withGSVLatch_rel s1 s2 e m.NumberSVsInView h)
        · simp only [h3, h3', if_false]
          trivial
    · simp only [hc, if_false]
      exact ih (i + 1) s1 s2 h

/-- An iteration of the scan loop from two related states ends the same way,
in related states. -/
theorem scanStep_rel (s1 s2 : State) (l : ScanLine) (h : CycleRel s1 s2) :
    Run.Rel CycleRel (scanStep s1 l) (scanStep s2 l) := by
  rcases l with ⟨now, _ | m | m | m | _⟩
  · exact h
  · obtain ⟨henv, ⟨hr1, hr2⟩, hg, hs⟩ := h
    simp only [scanStep, Run.Rel, caseRMC]
    rw [← hr1]
    split
    · refine ⟨henv, ⟨rfl, fun _ => ?_⟩, ⟨hg.1, fun hc => ?_⟩, ?_⟩
      · simp [GNSSDataStruct.rmcFields]
      · simpa [GNSSDataStruct.ggaFields] using hg.2 hc
      · exact hs
    · exact ⟨henv, ⟨hr1, hr2⟩, hg, hs⟩
  · obtain ⟨henv, hr, ⟨hg1, hg2⟩, hs⟩ := h
    simp only [scanStep, Run.Rel, caseGGA]
    rw [← hg1]
    split
    · refine ⟨henv, ⟨hr.1, fun hc => ?_⟩, ⟨rfl, fun _ => ?_⟩, ?_⟩
      · simpa [GNSSDataStruct.rmcFields] using hr.2 hc
      · simp [GNSSDataStruct.ggaFields]
      · exact hs
    · exact ⟨henv, hr, ⟨hg1, hg2⟩, hs⟩
  · obtain ⟨henv, ⟨hr1, hr2⟩, ⟨hg1, hg2⟩, hs⟩ := h
    have hrel := gsvLoop_rel m m.Info 0 s1 s2 hs
    have e1 := scanStep_env s1 ⟨now, some (Sentence.gsv m)⟩
    have e2 := scanStep_env s2 ⟨now, some (Sentence.gsv m)⟩
    have r1 := scanStep_rmc s1 ⟨now, some (Sentence.gsv m)⟩
    have r2 := scanStep_rmc s2 ⟨now, some (Sentence.gsv m)⟩
    have g1 := scanStep_gga s1 ⟨now, some (Sentence.gsv m)⟩
    have g2 := scanStep_gga s2 ⟨now, some (Sentence.gsv m)⟩
    simp only [scanStep, caseGSV, acceptedRMC, acceptedGGA, Bool.or_false] at e1 e2 r1 r2 g1 g2 ⊢
    cases ha : gsvLoop m m.Info 0 s1 with
    | ok a =>
      cases hb : gsvLoop m m.Info 0 s2 with
      | ok b =>
        rw [ha, hb] at hrel
        rw [ha] at e1 r1 g1
        rw [hb] at e2 r2 g2
        simp only [Run.state] at e1 e2 r1 r2 g1 g2
        obtain ⟨c1, c2, c3, c4, c5, c6⟩ := e1
        obtain ⟨d1, d2, d3, d4, d5, d6⟩ := e2
        obtain ⟨p1, p2, p3, p4, p5, p6⟩ := henv
        refine ⟨⟨?_, ?_, ?_, ?_, ?_, ?_⟩, ⟨?_, fun hc => ?_⟩, ⟨?_, fun hc => ?_⟩, hrel⟩
        · rw [c1, d1, p1]
        · rw [c2, d2, p2]
        · rw [c3, d3, p3]
        · rw [c4, d4, p4]
        · rw [c5, d5, p5]
        · rw [c6, d6, p6]
        · rw [r1.1, r2.1, hr1]
        · rw [r1.2, r2.2]
          exact hr2 (r1.1 ▸ hc)
        · rw [g1.1, g2.1, hg1]
        · rw [g1.2, g2.2]
          exact hg2 (g1.1 ▸ hc)
      | panic b =>
        rw [ha, hb] at hrel
        exact hrel
    | panic a =>
      cases hb : gsvLoop m m.Info 0 s2 with
      | ok b =>
        rw [ha, hb] at hrel
        exact hrel
      | panic b => trivial
  · exact h

/-- The scan loop from two related states ends the same way, in related
states. -/
theorem scanLoop_rel (ls : List ScanLine) (s1 s2 : State) (h : CycleRel s1 s2) :
    Run.Rel CycleRel (scanLoop ls s1) (scanLoop ls s2) := by
  induction ls generalizing s1 s2 with
  | nil => exact h
  | cons l ls ih =>
    have hstep := scanStep_rel s1 s2 l h
    rw [scanLoop, scanLoop]
    cases ha : scanStep s1 l with
    | ok a =>
      cases hb : scanStep s2 l with
      | ok b =>
        rw [ha, hb] at hstep
        exact ih a b hstep
      | panic b =>
        rw [ha, hb] at hstep
        exact absurd hstep (by simp [Run.Rel])
    | panic a =>
      cases hb : scanStep s2 l with
      | ok b =>
        rw [ha, hb] at hstep
        exact absurd hstep (by simp [Run.Rel])
      | panic b => trivial

/-- Related states with all three latches set are equal. -/
theorem CycleRel.eq_of_good (s1 s2 : State) (h : CycleRel s1 s2)
    (h1 : s1.RMCSentenceValid = true) (h2 : s1.GGASentenceValid = true)
    (h3 : s1.GSVSentenceValid = true) : s1 = s2 := by
  obtain ⟨⟨p1, p2, p3, p4, p5, p6⟩, ⟨r1, r2⟩, ⟨g1, g2⟩, ⟨v1, v2, v3, v4, v5⟩⟩ := h
  have hr := r2 h1
  have hg := g2 h2
  obtain ⟨hv, hw⟩ := v5 h3
  simp only [GNSSDataStruct.rmcFields, GNSSDataStruct.ggaFields, Prod.mk.injEq] at hr hg
  rcases s1 with ⟨c, ⟨a1, a2, a3, a4, a5, a6, a7, a8, a9, a10, a11, a12, a13, a14, a15,
    ⟨x0, x1, x2, x3⟩⟩, ch, l1, l2, l3, gd, rc, op, wr⟩
  rcases s2 with ⟨c', ⟨b1, b2, b3, b4, b5, b6, b7, b8, b9, b10, b11, b12, b13, b14, b15,
    ⟨y0, y1, y2, y3⟩⟩, ch', m1, m2, m3, gd', rc', op', wr'⟩
  simp only at p1 p2 p3 p4 p5 p6 r1 g1 v1 v2 v3 v4 hv hw hr hg
  simp only [State.mk.injEq, GNSSDataStruct.mk.injEq, GSVArray.mk.injEq]
  simp [*]

/-- A slot that no GSV sentence of the sequence has an entry with `SNR > 0`
for keeps its content through an iteration of the scan loop. -/
theorem scanStep_slot_kept (st st' : State) (l : ScanLine) (j : Nat) (hj : j < 4)
    (h : scanStep st l = Run.ok st') (hw : writesSlot j l = false) :
    st'.GNSSData.GSVData.get? j = st.GNSSData.GSVData.get? j := by
  rcases l with ⟨now, _ | m | m | m | _⟩
  · simp only [scanStep, Run.ok.injEq] at h
    rw [← h]
  · simp only [scanStep, Run.ok.injEq, caseRMC] at h
    rw [← h]
    split <;> rfl
  · simp only [scanStep, Run.ok.injEq, caseGGA] at h
    rw [← h]
    split <;> rfl
  · simp only [scanStep, caseGSV] at h
    rw [gsvLoop_slot m m.Info 0 j st st' hj h]
    simp only [writesSlot] at hw
    simp only [Nat.sub_zero]
    cases hm : m.Info[j]? with
    | none => simp
    | some e =>
      rw [hm] at hw
      simp only [decide_eq_false_iff_not] at hw
      simp [hw]
  · simp only [scanStep, Run.ok.injEq] at h
    rw [← h]

theorem scanLoop_slot_kept (ls : List ScanLine) (st st' : State) (j : Nat) (hj : j < 4)
    (h : scanLoop ls st = Run.ok st') (hw : ls.all (fun l => !writesSlot j l) = true) :
    st'.GNSSData.GSVData.get? j = st.GNSSData.GSVData.get? j := by
  induction ls generalizing st with
  | nil =>
    simp only [scanLoop, Run.ok.injEq] at h
    rw [← h]
  | cons l ls ih =>
    simp only [List.all_cons, Bool.and_eq_true, Bool.not_eq_true'] at hw
    rw [scanLoop] at h
    cases hr : scanStep st l with
    | ok st1 =>
      rw [hr] at h
      rw [ih st1 h (by simpa using hw.2), scanStep_slot_kept st st1 l j hj hr hw.1]
    | panic st1 =>
      rw [hr] at h
      exact absurd h (by simp)

/-! ## Zero-padded decimals -/

theorem toDigits_one (n : Nat) (h : n < 10) : Nat.toDigits 10 n = [Nat.digitChar n] := by
  have h0 : n / 10 = 0 := by omega
  have h1 : n % 10 = n := by omega
  simp [Nat.toDigits, Nat.toDigitsCore, h0, h1]

theorem toDigits_two (n : Nat) (h1 : 10 ≤ n) (h2 : n < 100) :
    Nat.toDigits 10 n = [Nat.digitChar (n / 10), Nat.digitChar (n % 10)] := by
  obtain ⟨k, rfl⟩ : ∃ k, n = k + 1 := ⟨n - 1, by omega⟩
  have a0 : (k + 1) / 10 ≠ 0 := by omega
  have a1 : (k + 1) / 10 / 10 = 0 := by omega
  have a2 : (k + 1) / 10 % 10 = (k + 1) / 10 := by omega
  simp [Nat.toDigits, Nat.toDigitsCore, a0, a1, a2]

theorem toDigits_three (n : Nat) (h1 : 100 ≤ n) (h2 : n < 1000) :
    Nat.toDigits 10 n =
      [Nat.digitChar (n / 100), Nat.digitChar (n / 10 % 10), Nat.digitChar (n % 10)] := by
  obtain ⟨k, rfl⟩ : ∃ k, n = k + 2 := ⟨n - 2, by omega⟩
  have a0 : (k + 2) / 10 ≠ 0 := by omega
  have a1 : (k + 2) / 10 / 10 ≠ 0 := by omega
  have a2 : (k + 2) / 10 / 10 / 10 = 0 := by omega
  have a3 : (k + 2) / 10 / 10 % 10 = (k + 2) / 100 := by omega
  simp [Nat.toDigits, Nat.toDigitsCore, a0, a1, a2, a3]

theorem toDigits_four (n : Nat) (h1 : 1000 ≤ n) (h2 : n < 10000) :
    Nat.toDigits 10 n =
      [Nat.digitChar (n / 1000), Nat.digitChar (n / 100 % 10), Nat.digitChar (n / 10 % 10),
        Nat.digitChar (n % 10)] := by
  obtain ⟨k, rfl⟩ : ∃ k, n = k + 3 := ⟨n - 3, by omega⟩
  have a0 : (k + 3) / 10 ≠ 0 := by omega
  have a1 : (k + 3) / 10 / 10 ≠ 0 := by omega
  have a2 : (k + 3) / 10 / 10 / 10 ≠ 0 := by omega
  have a3 : (k + 3) / 10 / 10 / 10 / 10 = 0 := by omega
  have a4 : (k + 3) / 10 / 10 / 10 % 10 = (k + 3) / 1000 := by omega
  have a5 : (k + 3) / 10 / 10 % 10 = (k + 3) / 100 % 10 := by omega
  simp [Nat.toDigits, Nat.toDigitsCore, a0, a1, a2, a3, a4, a5]

/-- Below 100, `appendInt n 2` is exactly two decimal digits, tens first. -/
theorem appendInt_two (n : Nat) (h : n < 100) :
    appendInt n 2 = [Nat.digitChar (n / 10), Nat.digitChar (n % 10)] := by
  by_cases h1 : n < 10
  · have b0 : n / 10 = 0 := by omega
    have b1 : n % 10 = n := by omega
    simp [appendInt, toDigits_one n h1, b0, b1]
    rfl
  · simp [appendInt, toDigits_two n (by omega) h]

/-- Below 10000, `appendInt n 4` is exactly four decimal digits, thousands
first. -/
theorem appendInt_four (n : Nat) (h : n < 10000) :
    appendInt n 4 =
      [Nat.digitChar (n / 1000), Nat.digitChar (n / 100 % 10), Nat.digitChar (n / 10 % 10),
        Nat.digitChar (n % 10)] := by
  by_cases h1 : n < 10
  · have b0 : n / 1000 = 0 := by omega
    have b1 : n / 100 = 0 := by omega
    have b2 : n / 10 = 0 := by omega
    have b3 : n % 10 = n := by omega
    simp [appendInt, toDigits_one n h1, b0, b1, b2, b3, List.replicate]
    rfl
  · by_cases h2 : n < 100
    · have b0 : n / 1000 = 0 := by omega
      have b1 : n / 100 = 0 := by omega
      have b2 : n / 10 % 10 = n / 10 := by omega
      simp [appendInt, toDigits_two n (by omega) h2, b0, b1, b2, List.replicate]
      rfl
    · by_cases h3 : n < 1000
      · have b0 : n / 1000 = 0 := by omega
        have b1 : n / 100 % 10 = n / 100 := by omega
        simp [appendInt, toDigits_three n (by omega) h3, b0, b1]
        rfl
      · simp [appendInt, toDigits_four n (by omega) h]

/-! ## Claims -/

/-- C2 (latch idempotence). In every state whose RMC latch is set, an
iteration of the scan loop on any RMC sentence returns the state unchanged;
likewise for the GGA latch and GGA sentences, and for the GSV latch and GSV
sentences (with any number of entries). The whole state is unchanged, hence
every Fix field attributed to the family and the latch itself. -/
theorem latch_idempotence (st : State) :
    (st.RMCSentenceValid = true →
      ∀ (now : Time) (m : RMC), scanStep st ⟨now, some (Sentence.rmc m)⟩ = Run.ok st) ∧
    (st.GGASentenceValid = true →
      ∀ (now : Time) (m : GGA), scanStep st ⟨now, some (Sentence.gga m)⟩ = Run.ok st) ∧
    (st.GSVSentenceValid = true →
      ∀ (now : Time) (m : GSV), scanStep st ⟨now, some (Sentence.gsv m)⟩ = Run.ok st) := by
  refine ⟨?_, ?_, ?_⟩
  · intro h now m
    simp [scanStep, caseRMC, h]
  · intro h now m
    simp [scanStep, caseGGA, h]
  · intro h now m
    simp only [scanStep, caseGSV]
    exact gsvLoop_latched m m.Info 0 st h

/-- C2, at a concrete state with the three latches set: an RMC, a GGA and a
(five-entry) GSV sentence each leave it unchanged. -/
theorem latch_idempotence_witness :
    exLatched.RMCSentenceValid = true ∧ exLatched.GGASentenceValid = true ∧
    exLatched.GSVSentenceValid = true ∧
    scanStep exLatched ⟨exTime, some (Sentence.rmc exRMC)⟩ = Run.ok exLatched ∧
    scanStep exLatched ⟨exTime, some (Sentence.gga exGGA)⟩ = Run.ok exLatched ∧
    scanStep exLatched ⟨exTime, some (Sentence.gsv exGSV5)⟩ = Run.ok exLatched :=
  ⟨rfl, rfl, rfl, (latch_idempotence exLatched).1 rfl exTime exRMC,
    (latch_idempotence exLatched).2.1 rfl exTime exGGA,
    (latch_idempotence exLatched).2.2 rfl exTime exGSV5⟩

/-- C3 (distributor fan-out). With `Receivers = k`, the publish step of a good
cycle (all three latches set) appends exactly `k` copies of the assembled Fix
to the channel and nothing else; when the cycle is not good the channel is
left as it was. -/
theorem broadcast_fan_out (k : Nat) (st : State) (hk : st.Receivers = (k : Int)) :
    (st.RMCSentenceValid = true ∧ st.GGASentenceValid = true ∧ st.GSVSentenceValid = true →
      (broadcast st).GNSSDataPublic = st.GNSSDataPublic ++ List.replicate k st.GNSSData) ∧
    (¬ (st.RMCSentenceValid = true ∧ st.GGASentenceValid = true ∧ st.GSVSentenceValid = true) →
      (broadcast st).GNSSDataPublic = st.GNSSDataPublic) := by
  constructor
  · rintro ⟨h1, h2, h3⟩
    simp [broadcast, h1, h2, h3, hk, sendLoop_eq]
  · intro h
    have h' : (st.RMCSentenceValid && st.GGASentenceValid && st.GSVSentenceValid) = false := by
      cases h1 : st.RMCSentenceValid <;> cases h2 : st.GGASentenceValid <;>
        cases h3 : st.GSVSentenceValid <;> simp_all
    simp [broadcast, h']

/-- C3, with two consumers: a good cycle appends two copies of the Fix, a
cycle with no latch set appends nothing. -/
theorem broadcast_fan_out_witness :
    exLatched.Receivers = ((2 : Nat) : Int) ∧
    (broadcast exLatched).GNSSDataPublic =
      exLatched.GNSSDataPublic ++ List.replicate 2 exLatched.GNSSData ∧
    (broadcast exState).GNSSDataPublic = exState.GNSSDataPublic :=
  ⟨by decide, (broadcast_fan_out 2 exLatched (by decide)).1 (by decide),
    (broadcast_fan_out 2 exState (by decide)).2 (by decide)⟩

/-- C5 (configuration validation). When both even and odd parity are
requested, `getGpsPosition` returns `(false, err)` with `err != nil`, makes no
`serial.Open` call and sends nothing on the channel, whatever the other
configuration fields and the environment are; when GPS is enabled and a port
is named the error is the parity error. -/
theorem parity_conflict_rejected (w : World) (st : State)
    (h : st.Config.Even = true ∧ st.Config.Odd = true) :
    ∃ e : String,
      (getGpsPosition w st).1 = Outcome.ret false (some e) ∧
      (getGpsPosition w st).2.opened = st.opened ∧
      (getGpsPosition w st).2.GNSSDataPublic = st.GNSSDataPublic ∧
      (st.Config.Enabled = true → st.Config.Port ≠ "" →
        e = "can't specify both even and odd parity") := by
  obtain ⟨he, ho⟩ := h
  by_cases hen : st.Config.Enabled = true
  · by_cases hp : st.Config.Port = ""
    · exact ⟨"gnss port not specified", by simp [getGpsPosition, hen, hp]⟩
    · exact ⟨"can't specify both even and odd parity", by simp [getGpsPosition, hen, hp, he, ho]⟩
  · exact ⟨"gnss not enabled", by simp [getGpsPosition, hen]⟩

/-- C5, at a configuration that is valid except that both parities are
requested. -/
theorem parity_conflict_rejected_witness :
    (exStateBothParities.Config.Even = true ∧ exStateBothParities.Config.Odd = true) ∧
    ∃ e : String,
      (getGpsPosition exWorld exStateBothParities).1 = Outcome.ret false (some e) ∧
      (getGpsPosition exWorld exStateBothParities).2.opened = exStateBothParities.opened ∧
      (getGpsPosition exWorld exStateBothParities).2.GNSSDataPublic =
        exStateBothParities.GNSSDataPublic ∧
      (exStateBothParities.Config.Enabled = true → exStateBothParities.Config.Port ≠ "" →
        e = "can't specify both even and odd parity") :=
  ⟨⟨rfl, rfl⟩, parity_conflict_rejected exWorld exStateBothParities ⟨rfl, rfl⟩⟩

/-- C4 (satellite slot bound). The observation array has exactly the slots
0..3 (indexing at 4 or more yields nothing). When the loop over the entries of
a GSV sentence completes, slot `j` holds the entry at position `j` of the
sentence if that entry has `SNR > 0` and the latch was unset, and its former
content otherwise. A GSV sentence with at most 4 entries never takes the
out-of-range branch: the loop completes, and so does the scan loop over any
sequence of lines whose GSV sentences carry at most 4 entries. -/
theorem satellite_slot_bound (st : State) (m : GSV) (ls : List ScanLine) :
    (∀ j, 4 ≤ j → st.GNSSData.GSVData.get? j = none) ∧
    (∀ st', caseGSV st m = Run.ok st' → ∀ j, j < 4 →
      st'.GNSSData.GSVData.get? j =
        match m.Info[j]? with
        | some e =>
          if e.SNR > 0 ∧ st.GSVSentenceValid = false then
            some ⟨e.SVPRNNumber, e.SNR, e.Azimuth⟩
          else st.GNSSData.GSVData.get? j
        | none => st.GNSSData.GSVData.get? j) ∧
    (m.Info.length ≤ 4 → ∃ st', caseGSV st m = Run.ok st') ∧
    (ls.all gsvWithin4 = true → ∃ st', scanLoop ls st = Run.ok st') := by
  refine ⟨?_, ?_, ?_, ?_⟩
  · intro j hj
    obtain ⟨k, rfl⟩ : ∃ k, j = k + 4 := ⟨j - 4, by omega⟩
    rfl
  · intro st' h j hj
    rw [gsvLoop_slot m m.Info 0 j st st' hj h]
    rcases Bool.eq_false_or_eq_true st.GSVSentenceValid with hv | hv
    · cases hm : m.Info[j]? <;> simp [hv, hm]
    · cases hm : m.Info[j]? <;> simp [hv, hm]
  · intro h
    exact gsvLoop_total m m.Info 0 st (by omega)
  · exact scanLoop_total ls st

/-- C4, at a concrete sentence: the 4-entry GSV sentence `exGSV` on the empty
Fix fills slots 1 and 3 (its entries with `SNR > 0`) and leaves slots 0 and 2. -/
theorem satellite_slot_bound_witness :
    exGSV.Info.length ≤ 4 ∧
    (∃ st', caseGSV exState exGSV = Run.ok st') ∧
    (∀ st', caseGSV exState exGSV = Run.ok st' →
      st'.GNSSData.GSVData.get? 1 = some ⟨2, 5, 200⟩ ∧
      st'.GNSSData.GSVData.get? 0 = some GSVDataStruct.zero) :=
  ⟨by decide, (satellite_slot_bound exState exGSV []).2.2.1 (by decide),
    fun st' h =>
      ⟨(satellite_slot_bound exState exGSV []).2.1 st' h 1 (by decide),
        (satellite_slot_bound exState exGSV []).2.1 st' h 0 (by decide)⟩⟩

/-- C1 (publication iff a complete cycle). For a call that gets as far as the
scan loop (GPS enabled, port named and opened, reception enabled; the latches
are reset by the call itself) and every sequence of decoded sentences, that
is of values `nmea.Parse` returns, whose GSV sentences carry at most 4 entries:
the call returns `(true, nil)` if and only if the sequence contains an RMC with
latitude and longitude `!= 0`, a GGA with latitude and longitude `!= 0` and a
GSV with an entry at index `>= 3` whose `SNR > 0`; in that case the channel
receives exactly `Receivers` copies of one value, the assembled Fix; otherwise
the call returns `(false, nil)` and the channel is left as it was. -/
theorem acquisition_publishes_iff (w : World) (st : State)
    (hr : reachesScan w st.Config = true) (h4 : w.lines.all gsvWithin4 = true) :
    ((getGpsPosition w st).1 = Outcome.ret true none ↔ cycleSatisfied w.lines = true) ∧
    (cycleSatisfied w.lines = true →
      (getGpsPosition w st).2.GNSSDataPublic =
        st.GNSSDataPublic ++ List.replicate st.Receivers.toNat (getGpsPosition w st).2.GNSSData) ∧
    (cycleSatisfied w.lines = false →
      (getGpsPosition w st).1 = Outcome.ret false none ∧
      (getGpsPosition w st).2.GNSSDataPublic = st.GNSSDataPublic) := by
  obtain ⟨st2, h2⟩ := scanLoop_total w.lines (scanStart st) h4
  obtain ⟨l1, l2, l3⟩ := scanLoop_latches w.lines (scanStart st) st2 h2
  have env := scanLoop_env w.lines (scanStart st)
  rw [h2] at env
  simp only [Run.state] at env
  obtain ⟨-, e2, e3, -, -, -⟩ := env
  have e2' : st2.GNSSDataPublic = st.GNSSDataPublic := e2
  have e3' : st2.Receivers = st.Receivers := e3
  have l1' : st2.RMCSentenceValid = w.lines.any acceptedRMC := by simpa [scanStart] using l1
  have l2' : st2.GGASentenceValid = w.lines.any acceptedGGA := by simpa [scanStart] using l2
  have l3' : st2.GSVSentenceValid = w.lines.any acceptedGSV := by simpa [scanStart] using l3
  have hg : (st2.RMCSentenceValid && st2.GGASentenceValid && st2.GSVSentenceValid) =
      cycleSatisfied w.lines := by
    rw [l1', l2', l3', cycleSatisfied]
  rw [getGpsPosition_scan w st hr, h2]
  rcases Bool.eq_false_or_eq_true (cycleSatisfied w.lines) with hc | hc
  · rw [hc] at hg
    simp [broadcast, hg, hc, sendLoop_eq, e2', e3']
  · rw [hc] at hg
    have e4 : st2.goodGPSRead = false := by
      have := (scanLoop_env w.lines (scanStart st)).2.2.2.1
      rw [h2] at this
      exact this
    simp [broadcast, hg, hc, e2', e4]

/-- C1, at a concrete cycle: `exWorld` (RMC, an undecodable line, GGA, 4-entry
GSV) with two consumers returns true and sends two copies. -/
theorem acquisition_publishes_iff_witness :
    reachesScan exWorld exState.Config = true ∧ exWorld.lines.all gsvWithin4 = true ∧
    (getGpsPosition exWorld exState).1 = Outcome.ret true none ∧
    (getGpsPosition exWorld exState).2.GNSSDataPublic =
      [] ++ List.replicate 2 (getGpsPosition exWorld exState).2.GNSSData :=
  ⟨by decide, by decide,
    (acquisition_publishes_iff exWorld exState (by decide) (by decide)).1.mpr (by decide),
    (acquisition_publishes_iff exWorld exState (by decide) (by decide)).2.1 (by decide)⟩

/-- C10 (published-Fix invariant). Whatever the Fix content before the call
and whatever the sequence of lines (the bound of 4 entries per GSV sentence
is not needed: a call that panics publishes nothing), when `getGpsPosition`
returns `(true, nil)` the channel has received `Receivers` copies of the
assembled Fix, and that Fix has latitude `!= 0`, longitude `!= 0`, slot 3 with
`SNR > 0`, and the latitude, longitude and raw text of the first RMC sentence
of the sequence that has nonzero latitude and longitude. -/
theorem published_fix_invariant (w : World) (st : State)
    (hp : (getGpsPosition w st).1 = Outcome.ret true none) :
    (getGpsPosition w st).2.GNSSDataPublic =
      st.GNSSDataPublic ++ List.replicate st.Receivers.toNat (getGpsPosition w st).2.GNSSData ∧
    (getGpsPosition w st).2.GNSSData.Lattitude.ne0 = true ∧
    (getGpsPosition w st).2.GNSSData.Longitude.ne0 = true ∧
    0 < (getGpsPosition w st).2.GNSSData.GSVData.e3.SNR ∧
    ∃ now m, firstRMC w.lines = some (now, m) ∧
      (getGpsPosition w st).2.GNSSData.Lattitude = m.Latitude ∧
      (getGpsPosition w st).2.GNSSData.Longitude = m.Longitude ∧
      (getGpsPosition w st).2.GNSSData.RMCRaw = m.Raw := by
  have hr := reachesScan_of_true w st hp
  rw [getGpsPosition_scan w st hr] at hp ⊢
  cases h2 : scanLoop w.lines (scanStart st) with
  | panic st2 =>
    rw [h2] at hp
    simp at hp
  | ok st2 =>
    rw [h2] at hp
    simp only [Outcome.ret.injEq, and_true] at hp
    obtain ⟨l1, l2, l3⟩ := scanLoop_latches w.lines (scanStart st) st2 h2
    have env := scanLoop_env w.lines (scanStart st)
    rw [h2] at env
    simp only [Run.state] at env
    obtain ⟨-, e2, e3, e4, -, -⟩ := env
    have e2' : st2.GNSSDataPublic = st.GNSSDataPublic := e2
    have e3' : st2.Receivers = st.Receivers := e3
    have e4' : st2.goodGPSRead = false := e4
    have hgood : (st2.RMCSentenceValid && st2.GGASentenceValid && st2.GSVSentenceValid) = true := by
      rcases Bool.eq_false_or_eq_true
        (st2.RMCSentenceValid && st2.GGASentenceValid && st2.GSVSentenceValid) with hg | hg
      · exact hg
      · simp [broadcast, hg, e4'] at hp
    simp only [Bool.and_eq_true] at hgood
    obtain ⟨⟨g1, g2⟩, g3⟩ := hgood
    have l1' : w.lines.any acceptedRMC = true := by
      rw [g1] at l1
      simpa [scanStart] using l1.symm
    obtain ⟨now, m, hm⟩ := firstRMC_of_any w.lines l1'
    obtain ⟨n1, n2⟩ := firstRMC_ne0 w.lines now m hm
    have hf := scanLoop_rmc w.lines (scanStart st) st2 h2
    have hs : (scanStart st).RMCSentenceValid = false := rfl
    rw [hs, hm] at hf
    simp only [Bool.false_eq_true, if_false, GNSSDataStruct.rmcFields, RMC.fields,
      Prod.mk.injEq] at hf
    obtain ⟨-, -, -, -, f1, f2, -, -, -, f3⟩ := hf
    have s3 := scanLoop_slot3 w.lines (scanStart st) st2 h2
      (fun hv => absurd (show false = true from hv) (by decide)) g3
    have hb : (broadcast st2).GNSSData = st2.GNSSData := by
      simp [broadcast, g1, g2, g3]
    simp only [h2, hb]
    refine ⟨?_, ?_, ?_, s3, now, m, hm, f1, f2, f3⟩
    · simp [broadcast, g1, g2, g3, sendLoop_eq, e2', e3']
    · rw [f1]
      exact n1
    · rw [f2]
      exact n2

/-- C10, at a concrete cycle: the call on `exWorld` returns true, and its Fix
has the latitude, longitude and raw text of `exRMC`. -/
theorem published_fix_invariant_witness :
    (getGpsPosition exWorld exState).1 = Outcome.ret true none ∧
    0 < (getGpsPosition exWorld exState).2.GNSSData.GSVData.e3.SNR ∧
    ∃ now m, firstRMC exWorld.lines = some (now, m) ∧
      (getGpsPosition exWorld exState).2.GNSSData.Lattitude = m.Latitude ∧
      (getGpsPosition exWorld exState).2.GNSSData.Longitude = m.Longitude ∧
      (getGpsPosition exWorld exState).2.GNSSData.RMCRaw = m.Raw :=
  ⟨by decide, (published_fix_invariant exWorld exState (by decide)).2.2.2.1,
    (published_fix_invariant exWorld exState (by decide)).2.2.2.2⟩

/-- C9 as amended. Only the latches are reset on entry; the Fix keeps the
content left by earlier cycles. A cycle that publishes from the earlier
content `g1` gives the very same result (return value, published Fix, channel)
from any earlier content `g2` that agrees with `g1` on observation slots 0, 1
and 2: every other field of a published Fix is written in the current cycle.
An observation slot for which no GSV sentence of the cycle has an entry with
`SNR > 0` keeps the earlier content in the published Fix. -/
theorem published_fix_carry_over (w : World) (st : State) (g1 g2 : GNSSDataStruct)
    (h0 : g1.GSVData.e0 = g2.GSVData.e0) (h1 : g1.GSVData.e1 = g2.GSVData.e1)
    (h2 : g1.GSVData.e2 = g2.GSVData.e2)
    (hp : (getGpsPosition w { st with GNSSData := g1 }).1 = Outcome.ret true none) :
    getGpsPosition w { st with GNSSData := g2 } = getGpsPosition w { st with GNSSData := g1 } ∧
    (∀ j, j < 4 → w.lines.all (fun l => !writesSlot j l) = true →
      (getGpsPosition w { st with GNSSData := g1 }).2.GNSSData.GSVData.get? j =
        g1.GSVData.get? j) := by
  have hr := reachesScan_of_true w _ hp
  have hr2 : reachesScan w ({ st with GNSSData := g2 } : State).Config = true := hr
  rw [getGpsPosition_scan w _ hr] at hp ⊢
  rw [getGpsPosition_scan w _ hr2]
  have hrel : CycleRel (scanStart { st with GNSSData := g1 }) (scanStart { st with GNSSData := g2 }) :=
    ⟨⟨rfl, rfl, rfl, rfl, rfl, rfl⟩, ⟨rfl, fun hc => absurd hc (by simp [scanStart])⟩,
      ⟨rfl, fun hc => absurd hc (by simp [scanStart])⟩,
      ⟨rfl, h0, h1, h2, fun hc => absurd hc (by simp [scanStart])⟩⟩
  have hloop := scanLoop_rel w.lines _ _ hrel
  cases ha : scanLoop w.lines (scanStart { st with GNSSData := g1 }) with
  | panic a =>
    rw [ha] at hp
    simp at hp
  | ok a =>
    cases hb : scanLoop w.lines (scanStart { st with GNSSData := g2 }) with
    | panic b =>
      rw [ha, hb] at hloop
      exact absurd hloop (by simp [Run.Rel])
    | ok b =>
      rw [ha, hb] at hloop
      rw [ha] at hp
      simp only [Outcome.ret.injEq, and_true] at hp
      have e4 : a.goodGPSRead = false := by
        have := (scanLoop_env w.lines (scanStart { st with GNSSData := g1 })).2.2.2.1
        rw [ha] at this
        exact this
      have hgood : (a.RMCSentenceValid && a.GGASentenceValid && a.GSVSentenceValid) = true := by
        rcases Bool.eq_false_or_eq_true
          (a.RMCSentenceValid && a.GGASentenceValid && a.GSVSentenceValid) with hg | hg
        · exact hg
        · simp [broadcast, hg, e4] at hp
      have hg' := hgood
      simp only [Bool.and_eq_true] at hg'
      obtain ⟨⟨q1, q2⟩, q3⟩ := hg'
      have hab : a = b := CycleRel.eq_of_good a b hloop q1 q2 q3
      refine ⟨by rw [hab], fun j hj hw => ?_⟩
      have hk := scanLoop_slot_kept w.lines _ a j hj ha hw
      have hbc : (broadcast a).GNSSData = a.GNSSData := by simp [broadcast, q1, q2, q3]
      simp only [hbc]
      exact hk

/-- C9 as amended, at two consecutive cycles: the second cycle publishes the
same Fix from the Fix the first cycle left and from another Fix with the same
observation array; slot 1, which the second cycle does not write, still holds
the first cycle's observation. -/
theorem published_fix_carry_over_witness :
    (getGpsPosition exWorldNext
        { exStateAfter with GNSSData := exStateAfter.GNSSData }).1 = Outcome.ret true none ∧
    getGpsPosition exWorldNext { exStateAfter with GNSSData := exFixOther } =
      getGpsPosition exWorldNext { exStateAfter with GNSSData := exStateAfter.GNSSData } ∧
    (getGpsPosition exWorldNext
        { exStateAfter with GNSSData := exStateAfter.GNSSData }).2.GNSSData.GSVData.get? 1 =
      exStateAfter.GNSSData.GSVData.get? 1 :=
  ⟨by decide,
    (published_fix_carry_over exWorldNext exStateAfter exStateAfter.GNSSData exFixOther
      rfl rfl rfl (by decide)).1,
    (published_fix_carry_over exWorldNext exStateAfter exStateAfter.GNSSData exFixOther
      rfl rfl rfl (by decide)).2 1 (by decide) (by decide)⟩

/-- C9 as stated fails. Two consecutive cycles: the first (`exWorld`) writes
slot 1; the second (`exWorldNext`) has no entry with `SNR > 0` at position 1,
yet the Fix it publishes holds the first cycle's observation in slot 1, not
the zero value, and differs from the Fix the same sentences give on the empty
Fix. -/
theorem stale_slot_published :
    (getGpsPosition exWorld exState).1 = Outcome.ret true none ∧
    (getGpsPosition exWorldNext (getGpsPosition exWorld exState).2).1 = Outcome.ret true none ∧
    exWorldNext.lines.all (fun l => !writesSlot 1 l) = true ∧
    (getGpsPosition exWorldNext (getGpsPosition exWorld exState).2).2.GNSSData.GSVData.e1 =
      ⟨2, 5, 200⟩ ∧
    (getGpsPosition exWorldNext (getGpsPosition exWorld exState).2).2.GNSSData.GSVData.e1 ≠
      GSVDataStruct.zero ∧
    (getGpsPosition exWorldNext exState).1 = Outcome.ret true none ∧
    (getGpsPosition exWorldNext (getGpsPosition exWorld exState).2).2.GNSSData ≠
      (getGpsPosition exWorldNext exState).2.GNSSData := by
  decide

/-- C6 as amended (year first). The timestamp parameter of the OsmAnd query
is the Fix's acquisition timestamp rendered as a date, the literal `%20` and
the time: the date is the four-digit year, `-`, and the two-digit day of month
and month separated by `-`, in an order this statement leaves open (`a` and
`b` below); the time is hours:minutes:seconds. For a year below 10000 and
fields below 100 the parameter is exactly the 21 characters written out, every
field zero-padded. -/
theorem osmand_timestamp_year_first (c : TraccarConfig) (fmtF : Float64 → String)
    (f : GNSSDataStruct) :
    ∃ a b : Nat,
      ((a = f.DateTime.day ∧ b = f.DateTime.month) ∨
        (a = f.DateTime.month ∧ b = f.DateTime.day)) ∧
      TraccarDateTime f =
        String.mk (appendInt f.DateTime.year 4 ++ '-' :: (appendInt a 2 ++
          '-' :: appendInt b 2)) ++ "%20" ++
        String.mk (appendInt f.DateTime.hour 2 ++ ':' :: (appendInt f.DateTime.minute 2 ++
          ':' :: appendInt f.DateTime.second 2)) ∧
      TraccarServerFullURLOsman c fmtF f =
        c.OsmandServerURL ++ ":" ++ c.OsmandPort ++ "/?" ++ "id=" ++ c.ClientId ++ "&" ++
          "timestamp=" ++
          (String.mk (appendInt f.DateTime.year 4 ++ '-' :: (appendInt a 2 ++
              '-' :: appendInt b 2)) ++ "%20" ++
            String.mk (appendInt f.DateTime.hour 2 ++ ':' :: (appendInt f.DateTime.minute 2 ++
              ':' :: appendInt f.DateTime.second 2))) ++
          "&" ++ "lat=" ++ fmtF f.Lattitude ++ "&" ++ "lon=" ++ fmtF f.Longitude ++
          "&" ++ "speed=" ++ fmtF f.Speed ++ "&" ++ "course=" ++ fmtF f.Course ++
          "&" ++ "variation=" ++ fmtF f.Variation ∧
      (f.DateTime.year < 10000 → f.DateTime.month < 100 → f.DateTime.day < 100 →
        f.DateTime.hour < 100 → f.DateTime.minute < 100 → f.DateTime.second < 100 →
        TraccarDateTime f =
          String.mk
            [Nat.digitChar (f.DateTime.year / 1000), Nat.digitChar (f.DateTime.year / 100 % 10),
              Nat.digitChar (f.DateTime.year / 10 % 10), Nat.digitChar (f.DateTime.year % 10),
              '-', Nat.digitChar (a / 10), Nat.digitChar (a % 10),
              '-', Nat.digitChar (b / 10), Nat.digitChar (b % 10),
              '%', '2', '0',
              Nat.digitChar (f.DateTime.hour / 10), Nat.digitChar (f.DateTime.hour % 10),
              ':', Nat.digitChar (f.DateTime.minute / 10), Nat.digitChar (f.DateTime.minute % 10),
              ':', Nat.digitChar (f.DateTime.second / 10),
              Nat.digitChar (f.DateTime.second % 10)]) := by
  have hts : TraccarDateTime f =
      String.mk (appendInt f.DateTime.year 4 ++ '-' :: (appendInt f.DateTime.day 2 ++
        '-' :: appendInt f.DateTime.month 2)) ++ "%20" ++
      String.mk (appendInt f.DateTime.hour 2 ++ ':' :: (appendInt f.DateTime.minute 2 ++
        ':' :: appendInt f.DateTime.second 2)) := by
    simp [TraccarDateTime, Time.Format, Time.formatChars]
  refine ⟨f.DateTime.day, f.DateTime.month, Or.inl ⟨rfl, rfl⟩, hts,
    by rw [TraccarServerFullURLOsman, hts], fun hy hmo hd hh hmi hs => ?_⟩
  rw [hts, appendInt_four _ hy, appendInt_two _ hmo, appendInt_two _ hd, appendInt_two _ hh,
    appendInt_two _ hmi, appendInt_two _ hs]
  rfl

/-- C6 as amended, at the acquisition timestamp 2024-03-09 14:05:07 UTC: the
parameter is `2024-`, the fields 09 and 03 in the order left open, then
`%2014:05:07`. -/
theorem osmand_timestamp_year_first_witness :
    exFixA.DateTime.year < 10000 ∧
    ∃ a b : Nat,
      ((a = exFixA.DateTime.day ∧ b = exFixA.DateTime.month) ∨
        (a = exFixA.DateTime.month ∧ b = exFixA.DateTime.day)) ∧
      TraccarDateTime exFixA =
        String.mk
          ['2', '0', '2', '4', '-', Nat.digitChar (a / 10), Nat.digitChar (a % 10),
            '-', Nat.digitChar (b / 10), Nat.digitChar (b % 10),
            '%', '2', '0', '1', '4', ':', '0', '5', ':', '0', '7'] :=
  ⟨by decide,
    (osmand_timestamp_year_first exTraccar (fun _ => "") exFixA).elim fun a h =>
      h.elim fun b hb =>
        ⟨a, b, hb.1,
          hb.2.2.2 (by decide) (by decide) (by decide) (by decide) (by decide) (by decide)⟩⟩

/-- C6 as stated fails: for the acquisition timestamp 2024-03-09 14:05:07 UTC
the parameter is `2024-09-03%2014:05:07`, not `03-09-2024%2014:05:07`. -/
theorem osmand_timestamp_not_month_first :
    TraccarDateTime exFixA = "2024-09-03%2014:05:07" ∧
    TraccarDateTime exFixA ≠ "03-09-2024%2014:05:07" := by
  decide

/-- C7 fails on the code. Whatever the queue of Fixes and the sessions, the
T55 adapter dequeues at most one Fix and opens at most one connection; with
two Fixes delivered and every session ended by end-of-stream it opens one
connection, sends the identification frame and the first Fix's sentence on
it, and returns: the second Fix is never dequeued. -/
theorem t55_single_connection :
    (∀ (c : TraccarConfig) (queue : List GNSSDataStruct) (sessions : List T55Session),
      (tcpSendT55Traccar c queue sessions).conns.length ≤ 1 ∧
      (tcpSendT55Traccar c queue sessions).dequeued.length ≤ 1) ∧
    tcpSendT55Traccar exTraccar [exFixA, exFixB] [exSessionEOF, exSessionEOF] =
      { dequeued := [exFixA]
        conns := [⟨"192.0.2.1:5005", ["$PGID,ABC123*0F\r\n", "$GPRMC,...*6A\r\n"]⟩]
        ending := AdapterEnd.returned } := by
  refine ⟨fun c queue sessions => ?_, by decide⟩
  unfold tcpSendT55Traccar
  split
  · simp
  · simp
  · simp only
    split
    · simp
    · split
      · simp
      · split <;> simp

/-- C8 fails on the code. With GPS enabled and an empty port name the call
returns `(false, "gnss port not specified")` and `Enabled` is still true; with
both parities requested it returns the parity error and `Enabled` is still
true; only the undecodable payload (and a failed open) clears `Enabled`. -/
theorem config_error_leaves_enabled :
    getGpsPosition exWorld { exState with Config := { exConfig with Port := "" } } =
      (Outcome.ret false (some "gnss port not specified"),
        { exState with Config := { exConfig with Port := "" } }) ∧
    (getGpsPosition exWorld
        { exState with Config := { exConfig with Port := "" } }).2.Config.Enabled = true ∧
    getGpsPosition exWorld { exState with Config := { exConfig with Even := true, Odd := true } } =
      (Outcome.ret false (some "can't specify both even and odd parity"),
        { exState with Config := { exConfig with Even := true, Odd := true } }) ∧
    (getGpsPosition exWorld
        { exState with Config := { exConfig with Even := true, Odd := true } }).2.Config.Enabled =
      true ∧
    (getGpsPosition exWorld { exState with Config := { exConfig with TxData := "zz" } }).1 =
      Outcome.ret false (some "cannot decode hex data") ∧
    (getGpsPosition exWorld
        { exState with Config := { exConfig with TxData := "zz" } }).2.Config.Enabled = false := by
  decide

end Talkkonnect
